import Mathlib

/-!
# Shallow embedding of the weather/energy data pipeline

This file embeds the data-transformation core of the repository
(`src/data_fetcher.py`, `src/data_processor.py`, `src/analysis.py`,
`src/pipeline.py`) and proves/refutes the frozen specification claims.

Modelling conventions:
* A pandas `DataFrame` is a column-name list plus a list of rows; a cell is
  a string, a rational number (for floats), an abstract datetime (days since
  the Unix epoch), a boolean, or `null` (pandas `NaN`/`NaT`/`None`).
  `pd.to_datetime` is the identity on the abstract `Cell.dt` dates.
* Comparisons with `null` are `false` (NaN semantics); `merge`, `duplicated`
  and `drop_duplicates` treat `null` keys as equal (pandas joins NaN keys and
  deduplicates NaN rows), while the boolean `==` used in per-city filtering
  treats `null` as unequal to everything, and `groupby` drops `null` keys.
* File I/O and logging are explicit: the pipeline threads a record of the
  persisted artifacts and a list of log messages.
-/

namespace WEPipe

/-- A cell of a tabular value. `dt` is a datetime measured in days since the
Unix epoch; `num` models a float; `null` models `NaN`/`NaT`/`None`. -/
inductive Cell where
  | str (s : String)
  | num (q : ℚ)
  | dt (d : Int)
  | bool (b : Bool)
  | null
deriving DecidableEq, Repr

/-- A DataFrame: column names plus rows of cells aligned with `cols`. -/
structure DF where
  cols : List String
  rows : List (List Cell)
deriving DecidableEq, Repr

/-- `pd.DataFrame()` -/
def emptyDF : DF := ⟨[], []⟩

/-- `df.empty`: true when the frame has no rows or no columns. -/
def DF.isEmpty (df : DF) : Bool := df.rows.isEmpty || df.cols.isEmpty

/-- Index of a column name in a column list. -/
def colIdx (cols : List String) (c : String) : Option Nat := cols.findIdx? (· = c)

/-- Cell at position `i` of a row (`null` out of range; rows are aligned with
the column list by construction). -/
def cellAt (row : List Cell) (i : Nat) : Cell := row.getD i Cell.null

/-- The cell of `row` in column `c`, reading `null` when the column is absent.
The pipeline only uses this on columns that exist at the call site; the one
place where a claim depends on a missing column (`KeyError`) uses `DF.series`
below instead. -/
def rowCell (cols : List String) (c : String) (row : List Cell) : Cell :=
  match colIdx cols c with
  | some i => cellAt row i
  | none => Cell.null

/-- `df[c]` as a series of cells; `KeyError` when the column is absent. -/
def DF.series (df : DF) (c : String) : Except String (List Cell) :=
  match colIdx df.cols c with
  | some i => .ok (df.rows.map (fun r => cellAt r i))
  | none => .error ("KeyError: " ++ c)

/-- `cell > q` (false on non-numeric cells, as for NaN in pandas). -/
def cellGtNum : Cell → ℚ → Bool
  | .num a, b => decide (b < a)
  | _, _ => false

/-- `cell < q` (false on non-numeric cells). -/
def cellLtNum : Cell → ℚ → Bool
  | .num a, b => decide (a < b)
  | _, _ => false

/-- `cell >= q` (false on non-numeric cells). -/
def cellGeNum : Cell → ℚ → Bool
  | .num a, b => decide (b ≤ a)
  | _, _ => false

/-- Boolean `==` on cells: `null` compares unequal to everything
(`NaN == NaN` is false in pandas). -/
def cellEqB : Cell → Cell → Bool
  | .null, _ => false
  | _, .null => false
  | a, b => decide (a = b)

/-- Total order on cells used to model the sorted index produced by
`pivot_table`; cells of the same kind compare by value (the pipeline only ever
sorts keys of a uniform kind: datetime dates and string cities). -/
def cellLe : Cell → Cell → Bool
  | .null, _ => true
  | _, .null => false
  | .num a, .num b => decide (a ≤ b)
  | .num _, _ => true
  | _, .num _ => false
  | .dt a, .dt b => decide (a ≤ b)
  | .dt _, _ => true
  | _, .dt _ => false
  | .bool a, .bool b => decide (a ≤ b)
  | .bool _, _ => true
  | _, .bool _ => false
  | .str a, .str b => decide (a ≤ b)

/-- Lexicographic order on (date, city) pivot keys. -/
def keyLe (a b : Cell × Cell) : Bool :=
  if a.1 = b.1 then cellLe a.2 b.2 else cellLe a.1 b.1

/-- `keyLe` as a relation, for `List.insertionSort`. -/
def keyLeR : Cell × Cell → Cell × Cell → Prop := fun a b => keyLe a b = true

instance : DecidableRel keyLeR := fun a b => by unfold keyLeR; infer_instance

/-- First-occurrence deduplication with an accumulator of already-seen
elements. -/
def dedupFirstAux [DecidableEq α] (seen : List α) : List α → List α
  | [] => []
  | x :: xs =>
    if x ∈ seen then dedupFirstAux seen xs else x :: dedupFirstAux (x :: seen) xs

/-- `drop_duplicates()`: keep the first occurrence of each element. -/
def dedupFirst [DecidableEq α] (l : List α) : List α := dedupFirstAux [] l

/-- Mean of the numeric cells in a list (pandas aggregation skips NaN);
`null` when there is no numeric value. -/
def meanCell (vs : List Cell) : Cell :=
  let qs := vs.filterMap (fun c => match c with | Cell.num q => some q | _ => none)
  if qs.isEmpty then Cell.null else Cell.num (qs.sum / (qs.length : ℚ))

/-- The `value` cells of the rows of `w` whose (date, city) key is `k` and
whose `datatype` is `d`. -/
def pivotVals (w : DF) (k : Cell × Cell) (d : String) : List Cell :=
  (w.rows.filter (fun r =>
      decide (rowCell w.cols "date" r = k.1 ∧ rowCell w.cols "city" r = k.2 ∧
        rowCell w.cols "datatype" r = Cell.str d))).map (rowCell w.cols "value")

/-- `weather_df.pivot_table(index=[date, city], columns=datatype,
values=value).reset_index()` (src/data_processor.py:40): one row per
(date, city) key, keys sorted ascending, each cell the mean of the values for
that key and datatype (pandas default aggfunc), rows all of whose value cells
are null dropped (pandas `dropna=True`).  Modelled for
`datatype ∈ {TMAX, TMIN}`, the only datatypes the fetcher requests. -/
def pivotWeather (w : DF) : DF :=
  let keys := dedupFirst (w.rows.map (fun r =>
    (rowCell w.cols "date" r, rowCell w.cols "city" r)))
  let sorted := keys.insertionSort keyLeR
  { cols := ["date", "city", "TMAX", "TMIN"],
    rows := sorted.filterMap (fun k =>
      let tmax := meanCell (pivotVals w k "TMAX")
      let tmin := meanCell (pivotVals w k "TMIN")
      if tmax = Cell.null ∧ tmin = Cell.null then none
      else some [k.1, k.2, tmax, tmin]) }

/-- `df.rename(columns=m)` -/
def renameCols (df : DF) (m : List (String × String)) : DF :=
  { df with cols := df.cols.map (fun c => ((m.lookup c).getD c)) }

/-- `df[[c1, ..., cn]]`: column projection/reordering (all columns present at
the call sites). -/
def selectCols (df : DF) (cs : List String) : DF :=
  { cols := cs, rows := df.rows.map (fun r => cs.map (fun c => rowCell df.cols c r)) }

/-- `pd.merge(a, b, on=keys, how=inner)`: result columns are `a`'s columns then
the non-key columns of `b`; one output row per (left row, matching right row)
pair, in left-major order (pandas inner joins preserve the order of the left
keys, and join `null` keys with `null` keys). -/
def mergeInner (a b : DF) (keys : List String) : DF :=
  let bExtra := b.cols.filter (fun c => decide (c ∉ keys))
  { cols := a.cols ++ bExtra,
    rows := a.rows.flatMap (fun ra =>
      b.rows.filterMap (fun rb =>
        if keys.all (fun k => decide (rowCell a.cols k ra = rowCell b.cols k rb)) then
          some (ra ++ bExtra.map (fun c => rowCell b.cols c rb))
        else none)) }

/-- Update an association of group keys to last-seen cells. -/
def assocSet (st : List (Cell × Cell)) (k v : Cell) : List (Cell × Cell) :=
  match st with
  | [] => [(k, v)]
  | (k2, v2) :: rest => if k2 = k then (k, v) :: rest else (k2, v2) :: assocSet rest k v

/-- Difference of two cells; `null` when either side is not numeric (NaN
propagation of `Series.diff`). -/
def subCell : Cell → Cell → Cell
  | .num a, .num b => .num (a - b)
  | _, _ => .null

/-- `groupby(city)[energy_consumption].diff()`, appended as a new last cell of
each row: the state threads the last energy cell seen for each city, in row
order.  Rows with a null city belong to no group (`groupby` drops null keys):
their diff cell is null and they leave the state unchanged. -/
def addChangeAux (cols : List String) (st : List (Cell × Cell)) :
    List (List Cell) → List (List Cell)
  | [] => []
  | r :: rs =>
    let city := rowCell cols "city" r
    let e := rowCell cols "energy_consumption" r
    match city with
    | Cell.null => (r ++ [Cell.null]) :: addChangeAux cols st rs
    | c =>
      let d := match st.lookup c with
        | some p => subCell e p
        | none => Cell.null
      (r ++ [d]) :: addChangeAux cols (assocSet st c e) rs

/-- `merged_df[merged_df[energy_consumption] >= 0]`
(src/data_processor.py:63). -/
def filterNonNegEnergy (df : DF) : DF :=
  { df with rows := df.rows.filter (fun r =>
      cellGeNum (rowCell df.cols "energy_consumption" r) 0) }

/-- `merged_df[energy_change] = merged_df.groupby(city)[energy_consumption].diff()`
(src/data_processor.py:64). -/
def addEnergyChange (df : DF) : DF :=
  { cols := df.cols ++ ["energy_change"], rows := addChangeAux df.cols [] df.rows }

/-- pandas `dayofweek`: Monday = 0 … Sunday = 6; epoch day 0 (1970-01-01) was
a Thursday. -/
def dayOfWeek (d : Int) : Int := (d + 3) % 7

/-- pandas `day_name()` for a day-of-week index. -/
def dayName (d : Int) : String :=
  match (dayOfWeek d).toNat with
  | 0 => "Monday" | 1 => "Tuesday" | 2 => "Wednesday" | 3 => "Thursday"
  | 4 => "Friday" | 5 => "Saturday" | _ => "Sunday"

/-- `df[date].dt.day_name()` cell (null for a null date). -/
def dayNameCell : Cell → Cell
  | .dt d => .str (dayName d)
  | _ => .null

/-- `df[date].dt.dayofweek >= 5` cell (false for NaT). -/
def isWeekendCell : Cell → Cell
  | .dt d => .bool (decide (5 ≤ dayOfWeek d))
  | _ => .bool false

/-- The two feature columns added at src/data_processor.py:67-68. -/
def addDayFeatures (df : DF) : DF :=
  { cols := df.cols ++ ["day_of_week", "is_weekend"],
    rows := df.rows.map (fun r =>
      r ++ [dayNameCell (rowCell df.cols "date" r),
            isWeekendCell (rowCell df.cols "date" r)]) }

/-- `clean_and_transform_data(weather_df, energy_df)` from
`src/data_processor.py:32-80`. -/
def clean_and_transform_data (weather0 energy0 : DF) : DF :=
  let weather_df :=
    if weather0.isEmpty then weather0
    else selectCols (renameCols (pivotWeather weather0)
          [("TMAX", "max_temp_F"), ("TMIN", "min_temp_F")])
          ["date", "city", "max_temp_F", "min_temp_F"]
  let energy_df :=
    if energy0.isEmpty then energy0
    else selectCols (renameCols energy0
          [("period", "date"), ("value", "energy_consumption"), ("region", "city")])
          ["date", "city", "energy_consumption"]
  if !weather_df.isEmpty && !energy_df.isEmpty then
    let merged := mergeInner weather_df energy_df ["date", "city"]
    if merged.isEmpty then merged
    else
      addDayFeatures (addEnergyChange (filterNonNegEnergy
        { merged with rows := dedupFirst merged.rows }))
  else if !weather_df.isEmpty then weather_df
  else if !energy_df.isEmpty then energy_df
  else emptyDF

/-! ## Quality auditor (`perform_data_quality_checks`) -/

/-- A value of the quality report: a message string, a list of flagged records
(`to_dict(orient=records)`), or per-column missing counts. -/
inductive QVal where
  | str (s : String)
  | recs (rs : List (List Cell))
  | counts (cs : List (String × Nat))
deriving DecidableEq, Repr

/-- `df[df.duplicated()]` with an accumulator of rows already seen: the rows
equal to some earlier row (pandas leaves the first occurrence unflagged). -/
def duplicatedRowsAux (seen : List (List Cell)) : List (List Cell) → List (List Cell)
  | [] => []
  | r :: rs =>
    if r ∈ seen then r :: duplicatedRowsAux seen rs
    else duplicatedRowsAux (r :: seen) rs

/-- `df[df.duplicated()]` (src/data_processor.py:92). -/
def duplicatedRows (rows : List (List Cell)) : List (List Cell) :=
  duplicatedRowsAux [] rows

/-- `df.isnull().sum()` restricted to the columns with a positive count
(src/data_processor.py:101-102). -/
def missingValues (df : DF) : List (String × Nat) :=
  (df.cols.enum.map (fun p =>
      (p.2, (df.rows.map (fun r => cellAt r p.1)).count Cell.null))).filter
    (fun p => decide (0 < p.2))

/-- The `Stale (latest date: d)` report text. -/
def staleText (d : Int) : String := "Stale (latest date: " ++ toString d ++ ")"

/-- Maximum non-null date of a date column (pandas `max` skips NaT). -/
def maxDate (cells : List Cell) : Option Int :=
  (cells.filterMap (fun c => match c with | Cell.dt d => some d | _ => none)).max?

/-- `perform_data_quality_checks(df)` from `src/data_processor.py:82-147`,
with "today" (`datetime.date.today()`) passed explicitly.  Returns the quality
report as a key/value list in insertion order, or the uncaught exception the
function would raise: a `KeyError` for each missing accessed column.  (An
all-NaT date column, which the pipeline cannot produce, is modelled as an
error as well.) -/
def perform_data_quality_checks (today : Int) (df : DF) :
    Except String (List (String × QVal)) :=
  if df.isEmpty then .ok [] else do
  let dups := duplicatedRows df.rows
  let r1 := if dups.isEmpty then [("duplicates", QVal.str "None")]
            else [("duplicates", QVal.recs dups)]
  let miss := missingValues df
  let r2 := if miss.isEmpty then [("missing_values", QVal.str "None")]
            else [("missing_values", QVal.counts miss)]
  let _ ← df.series "max_temp_F"
  let hi := df.rows.filter (fun r => cellGtNum (rowCell df.cols "max_temp_F" r) 130)
  let _ ← df.series "min_temp_F"
  let lo := df.rows.filter (fun r => cellLtNum (rowCell df.cols "min_temp_F" r) (-50))
  let r3 := (if hi.isEmpty then [] else [("high_temp_outliers", QVal.recs hi)]) ++
            (if lo.isEmpty then [] else [("low_temp_outliers", QVal.recs lo)]) ++
            (if hi.isEmpty && lo.isEmpty then [("temp_outliers", QVal.str "None")] else [])
  let _ ← df.series "energy_consumption"
  let neg := df.rows.filter (fun r => cellLtNum (rowCell df.cols "energy_consumption" r) 0)
  let r4 := if neg.isEmpty then [("negative_energy_consumption", QVal.str "None")]
            else [("negative_energy_consumption", QVal.recs neg)]
  let r5 ←
    if "date" ∈ df.cols ∧ ¬(df.isEmpty = true) then do
      let dates ← df.series "date"
      match maxDate dates with
      | some d =>
        if (2 : Int) < today - d then pure [("data_freshness", QVal.str (staleText d))]
        else pure [("data_freshness", QVal.str "Fresh")]
      | none => Except.error "NaT"
    else
      pure [("data_freshness",
        QVal.str "Unknown (missing date column or empty DataFrame)")]
  return r1 ++ r2 ++ r3 ++ r4 ++ r5

/-! ## Correlation analyzer (`analyze_correlation`) -/

/-- The value stored for one scope of the correlation analysis: `nan` (what
`scipy.stats.pearsonr` returns, with a warning, when an input is constant), or
the Pearson coefficient `cov / sqrt(vx * vy)` represented by the triple of
centred sums `(cov, vx, vy)`. -/
inductive Corr where
  | nan
  | val (cov vx vy : ℚ)
deriving DecidableEq, Repr

/-- The Python dict keys `overall_correlation` / `correlation_<city>` of the
result.  The two formats are disjoint and city names inject into the second,
so the dict keys are modelled by these constructors. -/
inductive CKey where
  | overall
  | city (c : Cell)
deriving DecidableEq, Repr

/-- Cells of a list as rationals, when all are numeric. -/
def toNums (cs : List Cell) : Option (List ℚ) :=
  cs.mapM (fun c => match c with | Cell.num q => some q | _ => none)

/-- All elements equal to the first. -/
def constantList (l : List ℚ) : Bool :=
  match l with
  | [] => true
  | a :: rest => rest.all (fun b => decide (b = a))

/-- `scipy.stats.pearsonr(x, y)`: raises `ValueError` for fewer than 2 points
and `TypeError` on non-numeric data; returns NaN (with a `ConstantInputWarning`)
when either input is constant; otherwise the Pearson coefficient of the paired
samples, represented by its centred sums. -/
def pearsonCells (xs ys : List Cell) : Except String Corr :=
  if xs.length < 2 then .error "ValueError"
  else
    match toNums xs, toNums ys with
    | some as, some bs =>
      if constantList as || constantList bs then .ok Corr.nan
      else
        let ps := as.zip bs
        let n : ℚ := (ps.length : ℚ)
        let xbar := (ps.map Prod.fst).sum / n
        let ybar := (ps.map Prod.snd).sum / n
        .ok (Corr.val ((ps.map (fun p => (p.1 - xbar) * (p.2 - ybar))).sum)
                      ((ps.map (fun p => (p.1 - xbar) ^ 2)).sum)
                      ((ps.map (fun p => (p.2 - ybar) ^ 2)).sum))
    | _, _ => .error "TypeError"

/-- `df.dropna(subset=[max_temp_F, energy_consumption])`
(src/analysis.py:39). -/
def dropnaTempEnergy (df : DF) : DF :=
  { df with rows := df.rows.filter (fun r =>
      decide (rowCell df.cols "max_temp_F" r ≠ Cell.null ∧
        rowCell df.cols "energy_consumption" r ≠ Cell.null)) }

/-- `Series.unique()`: distinct cells in first-occurrence order. -/
def uniqueCells (cs : List Cell) : List Cell := dedupFirst cs

/-- `analyze_correlation(df)` from `src/analysis.py:29-66`.  The per-city
filter `df_cleaned[df_cleaned[city] == city]` uses the NaN-unequal boolean
`==`; a failing `pearsonr` call is caught per scope and that scope omitted. -/
def analyze_correlation (df : DF) : List (CKey × Corr) :=
  if df.isEmpty || !(decide ("max_temp_F" ∈ df.cols)) ||
      !(decide ("energy_consumption" ∈ df.cols)) then []
  else
    let cleaned := dropnaTempEnergy df
    if cleaned.rows.isEmpty then []
    else
      let overall :=
        match pearsonCells (cleaned.rows.map (rowCell cleaned.cols "max_temp_F"))
            (cleaned.rows.map (rowCell cleaned.cols "energy_consumption")) with
        | .ok c => [(CKey.overall, c)]
        | .error _ => []
      let perCity := (uniqueCells (cleaned.rows.map (rowCell cleaned.cols "city"))).flatMap
        (fun city =>
          let sub := cleaned.rows.filter (fun r => cellEqB (rowCell cleaned.cols "city" r) city)
          if 1 < sub.length then
            match pearsonCells (sub.map (rowCell cleaned.cols "max_temp_F"))
                (sub.map (rowCell cleaned.cols "energy_consumption")) with
            | .ok c => [(CKey.city city, c)]
            | .error _ => []
          else [])
      overall ++ perCity

/-! ## Fetchers and pipeline orchestrator -/

/-- One entry of the configured city list. -/
structure City where
  name : String
  noaa_station_id : String
  eia_region_code : String
deriving DecidableEq, Repr

/-- The loaded configuration: whether each API key is present/valid, and the
city list. -/
structure Config where
  noaaKeyOk : Bool
  eiaKeyOk : Bool
  cities : List City
deriving Repr

/-- Outcome of the (retried) HTTP fetch for one city, abstracting the
network: a successful response with a parsed record table, an empty result
set, exhaustion of all retries (`tenacity.RetryError`), or another request
exception. -/
inductive FetchOutcome where
  | success (df : DF)
  | noResults
  | retryError
  | requestError

/-- The log line emitted after retries are exhausted for one city/region
(src/data_fetcher.py:80,132; the trailing exception text is omitted). -/
def retryFailMsg (ident : String) : String :=
  "Failed to fetch data for " ++ ident ++ " after multiple retries"

/-- `df[c] = v`: append a constant column. -/
def withColumn (df : DF) (c : String) (v : Cell) : DF :=
  { cols := df.cols ++ [c], rows := df.rows.map (fun r => r ++ [v]) }

/-- `pd.concat(dfs, ignore_index=True)` for frames with a common schema (as
produced by one fetcher). -/
def concatDFs : List DF → DF
  | [] => emptyDF
  | d :: ds => { cols := d.cols, rows := d.rows ++ (ds.map DF.rows).flatten }

/-- The per-city loop of `fetch_weather_data` (src/data_fetcher.py:58-92). -/
def fetchWeatherAux (oracle : City → FetchOutcome) :
    List City → List DF → List String → Option DF × List String
  | [], acc, log =>
    if acc.isEmpty then (none, log ++ ["No weather data was fetched for any city."])
    else (some (concatDFs acc), log)
  | c :: rest, acc, log =>
    match oracle c with
    | .success df => fetchWeatherAux oracle rest
        (acc ++ [withColumn df "city" (Cell.str c.name)])
        (log ++ ["Successfully fetched records for " ++ c.name ++ "."])
    | .noResults => fetchWeatherAux oracle rest acc
        (log ++ ["No results found for " ++ c.name ++ "."])
    | .retryError => (none, log ++ [retryFailMsg c.name])
    | .requestError => (none, log ++ ["Error fetching data for " ++ c.name])

/-- `fetch_weather_data(config)` from `src/data_fetcher.py:42-92`, over an
abstract network oracle.  Returns the concatenated table or `None`, plus the
log. -/
def fetch_weather_data (cfg : Config) (oracle : City → FetchOutcome) :
    Option DF × List String :=
  if !cfg.noaaKeyOk then
    (none, ["Error: NOAA token not found or not set in config.yaml."])
  else fetchWeatherAux oracle cfg.cities [] []

/-- The per-city loop of `fetch_energy_data` (src/data_fetcher.py:109-137);
log lines identify the region code, the appended `region` column holds the
city name (src/data_fetcher.py:126). -/
def fetchEnergyAux (oracle : City → FetchOutcome) :
    List City → List DF → List String → Option DF × List String
  | [], acc, log =>
    if acc.isEmpty then (none, log ++ ["No energy data was fetched for any region."])
    else (some (concatDFs acc), log)
  | c :: rest, acc, log =>
    match oracle c with
    | .success df => fetchEnergyAux oracle rest
        (acc ++ [withColumn df "region" (Cell.str c.name)])
        (log ++ ["Successfully fetched records for " ++ c.eia_region_code ++ "."])
    | .noResults => fetchEnergyAux oracle rest acc
        (log ++ ["No results found for " ++ c.eia_region_code ++ "."])
    | .retryError => (none, log ++ [retryFailMsg c.eia_region_code])
    | .requestError => (none, log ++ ["Error fetching data for " ++ c.eia_region_code])

/-- `fetch_energy_data(config)` from `src/data_fetcher.py:94-144`. -/
def fetch_energy_data (cfg : Config) (oracle : City → FetchOutcome) :
    Option DF × List String :=
  if !cfg.eiaKeyOk then
    (none, ["Error: EIA API key not found or not set in config.yaml."])
  else fetchEnergyAux oracle cfg.cities [] []

/-- The artifact files the pipeline persists (`data/raw/historical_weather.csv`,
`data/raw/historical_energy.csv`,
`data/processed/processed_energy_weather_data.csv`); `none` = file absent. -/
structure FS where
  weatherRaw : Option DF
  energyRaw : Option DF
  processed : Option DF
deriving Repr

/-- Result of one pipeline run: the file system afterwards, the log, and the
uncaught exception when the run crashed part-way. -/
structure RunResult where
  fs : FS
  log : List String
  crashed : Option String
deriving Repr

/-- `run_pipeline()` from `src/pipeline.py:14-79`, from the point after
configuration loading succeeds (the claims do not involve config failure).
Fetched tables are persisted when not `None`; processing re-loads the
persisted raw files (a missing file loads as an empty frame,
src/data_processor.py:14-30); the quality check runs before the processed
table is saved, so an exception it raises aborts the run with no processed
artifact written; the analysis stage only logs. -/
def run_pipeline (cfg : Config) (woracle eoracle : City → FetchOutcome)
    (fs0 : FS) (today : Int) : RunResult :=
  let w := fetch_weather_data cfg woracle
  let e := fetch_energy_data cfg eoracle
  let fs1 := match w.1 with
    | some df => { fs0 with weatherRaw := some df }
    | none => fs0
  let log1 := w.2 ++ (match w.1 with
    | some _ => ["Raw weather data saved"]
    | none => ["No weather data fetched."])
  let fs2 := match e.1 with
    | some df => { fs1 with energyRaw := some df }
    | none => fs1
  let log2 := log1 ++ e.2 ++ (match e.1 with
    | some _ => ["Raw energy data saved"]
    | none => ["No energy data fetched."])
  let weatherProc := fs2.weatherRaw.getD emptyDF
  let energyProc := fs2.energyRaw.getD emptyDF
  let processed := clean_and_transform_data weatherProc energyProc
  match perform_data_quality_checks today processed with
  | .error exc => { fs := fs2, log := log2, crashed := some exc }
  | .ok _ =>
    let fs3 := if processed.isEmpty then fs2 else { fs2 with processed := some processed }
    { fs := fs3, log := log2, crashed := none }

/-! ## Derived forms used in statements and proofs -/

/-- The rows flagged by the high-temperature outlier check
(`df[df[max_temp_F] > 130]`). -/
def hiRows (df : DF) : List (List Cell) :=
  df.rows.filter (fun r => cellGtNum (rowCell df.cols "max_temp_F" r) 130)

/-- The rows flagged by the low-temperature outlier check
(`df[df[min_temp_F] < -50]`). -/
def loRows (df : DF) : List (List Cell) :=
  df.rows.filter (fun r => cellLtNum (rowCell df.cols "min_temp_F" r) (-50))

/-- The rows flagged by the negative-energy check
(`df[df[energy_consumption] < 0]`). -/
def negRows (df : DF) : List (List Cell) :=
  df.rows.filter (fun r => cellLtNum (rowCell df.cols "energy_consumption" r) 0)

/-- The maximum non-null entry of the `date` column of `df`. -/
def maxDateOf (df : DF) : Option Int :=
  match colIdx df.cols "date" with
  | some i => maxDate (df.rows.map (fun r => cellAt r i))
  | none => none

/-- The quality report of a non-empty frame whose `date` maximum is `dmax`:
the value `perform_data_quality_checks` assembles on its non-error path. -/
def reportOf (today : Int) (df : DF) (dmax : Int) : List (String × QVal) :=
  (if (duplicatedRows df.rows).isEmpty then [("duplicates", QVal.str "None")]
   else [("duplicates", QVal.recs (duplicatedRows df.rows))]) ++
  (if (missingValues df).isEmpty then [("missing_values", QVal.str "None")]
   else [("missing_values", QVal.counts (missingValues df))]) ++
  ((if (hiRows df).isEmpty then [] else [("high_temp_outliers", QVal.recs (hiRows df))]) ++
   (if (loRows df).isEmpty then [] else [("low_temp_outliers", QVal.recs (loRows df))]) ++
   (if (hiRows df).isEmpty && (loRows df).isEmpty then [("temp_outliers", QVal.str "None")]
    else [])) ++
  (if (negRows df).isEmpty then [("negative_energy_consumption", QVal.str "None")]
   else [("negative_energy_consumption", QVal.recs (negRows df))]) ++
  [("data_freshness", QVal.str (if 2 < today - dmax then staleText dmax else "Fresh"))]

/-- The intermediate cleaned weather table of `clean_and_transform_data`
(pivot, rename, column selection). -/
def wSel (w : DF) : DF :=
  selectCols (renameCols (pivotWeather w) [("TMAX", "max_temp_F"), ("TMIN", "min_temp_F")])
    ["date", "city", "max_temp_F", "min_temp_F"]

/-- The intermediate cleaned energy table of `clean_and_transform_data`
(rename, column selection). -/
def eSel (e : DF) : DF :=
  selectCols (renameCols e
      [("period", "date"), ("value", "energy_consumption"), ("region", "city")])
    ["date", "city", "energy_consumption"]

/-- The inner-joined table of `clean_and_transform_data`, before
deduplication and filtering. -/
def joinedDF (w e : DF) : DF := mergeInner (wSel w) (eSel e) ["date", "city"]

/-- The fully transformed table on the main path of
`clean_and_transform_data` (dedup, negative filter, features). -/
def transformedDF (w e : DF) : DF :=
  addDayFeatures (addEnergyChange (filterNonNegEnergy
    { joinedDF w e with rows := dedupFirst (joinedDF w e).rows }))

/-- `true` on a datetime cell. -/
def isDtCell : Cell → Bool
  | .dt _ => true
  | _ => false

/-- `true` on a string cell. -/
def isStrCell : Cell → Bool
  | .str _ => true
  | _ => false

/-- Specification-side form of the per-group running difference: each row gets
`energy − previous energy` (w.r.t. the threaded previous cell), the first
`prev` for the whole group coming from the caller. -/
def annotate (prev : Option Cell) : List (List Cell) → List (List Cell)
  | [] => []
  | r :: rs =>
    (r ++ [match prev with
           | some p => subCell (cellAt r 4) p
           | none => Cell.null]) :: annotate (some (cellAt r 4)) rs

/-- Whether a stored correlation value is a Pearson coefficient lying in the
closed interval [-1, 1]: `val cov vx vy` represents `cov / sqrt(vx * vy)`
(with `vx, vy ≥ 0` sums of squares), which lies in [-1, 1] iff
`cov² ≤ vx · vy`; `nan` is not a number in [-1, 1]. -/
def inUnitInterval : Corr → Prop
  | Corr.nan => False
  | Corr.val cov vx vy => cov ^ 2 ≤ vx * vy

/-- The number of valid data points a city contributes after null exclusion:
rows of `df.dropna(subset=[max_temp_F, energy_consumption])` whose city cell
equals `c` under the NaN-unequal `==`. -/
def validCount (df : DF) (c : Cell) : Nat :=
  ((dropnaTempEnergy df).rows.filter
    (fun r => cellEqB (rowCell df.cols "city" r) c)).length

/-- A one-row raw energy table (as fetched: `period`/`value` columns plus the
appended `region`), used as concrete input. -/
def c10energy : DF :=
  { cols := ["period", "value", "region"],
    rows := [[.dt 20000, .num 10, .str "A"]] }

/-- A one-row canonical table with no quality defects, used as concrete
input. -/
def c4df : DF :=
  { cols := ["date", "city", "max_temp_F", "min_temp_F", "energy_consumption"],
    rows := [[.dt 20100, .str "A", .num 70, .num 50, .num 10]] }

/-- A two-row canonical table sitting on the high-temperature boundary:
one record at 131 °F and one at 130 °F. -/
def c7df : DF :=
  { cols := ["date", "city", "max_temp_F", "min_temp_F", "energy_consumption"],
    rows := [[.dt 20100, .str "A", .num 131, .num 50, .num 10],
             [.dt 20100, .str "B", .num 130, .num 50, .num 10]] }

/-- A raw weather table (fetcher schema) for city A on two consecutive
days. -/
def rawW : DF :=
  { cols := ["date", "datatype", "value", "city"],
    rows := [[.dt 20000, .str "TMAX", .num 70, .str "A"],
             [.dt 20000, .str "TMIN", .num 50, .str "A"],
             [.dt 20001, .str "TMAX", .num 75, .str "A"],
             [.dt 20001, .str "TMIN", .num 55, .str "A"]] }

/-- A raw energy table whose first observation is negative. -/
def c2e : DF :=
  { cols := ["period", "value", "region"],
    rows := [[.dt 20000, .num (-5), .str "A"],
             [.dt 20001, .num 12, .str "A"]] }

/-- A raw energy table containing an exact duplicate observation. -/
def c3e : DF :=
  { cols := ["period", "value", "region"],
    rows := [[.dt 20000, .num 10, .str "A"],
             [.dt 20001, .num 12, .str "A"],
             [.dt 20001, .num 12, .str "A"]] }

/-- A raw energy table with two positive observations for one city on
consecutive dates. -/
def c5e : DF :=
  { cols := ["period", "value", "region"],
    rows := [[.dt 20000, .num 10, .str "A"],
             [.dt 20001, .num 12, .str "A"]] }

/-- `true` on numeric and null cells (the well-typed contents of a numeric
column). -/
def isNumOrNull : Cell → Bool
  | .num _ => true
  | .null => true
  | _ => false

/-- A table for the correlation analyzer: city A has two valid (constant)
data points, city B has one row whose energy is null, hence zero valid
points. -/
def c8df : DF :=
  { cols := ["city", "max_temp_F", "energy_consumption"],
    rows := [[.str "A", .num 70, .num 10],
             [.str "A", .num 70, .num 10],
             [.str "B", .num 60, .null]] }

/-- Concrete fetch scenario: one configured city whose weather fetch
exhausts all retries while the energy fetch succeeds. -/
def c1city : City :=
  { name := "Boston", noaa_station_id := "S1", eia_region_code := "R1" }

/-- Configuration for the fetch-failure scenario. -/
def c1cfg : Config := { noaaKeyOk := true, eiaKeyOk := true, cities := [c1city] }

/-- The energy records the EIA oracle returns in the scenario. -/
def c1edf : DF := { cols := ["period", "value"], rows := [[.dt 20000, .num 10]] }

/-- Weather oracle: every request exhausts its retries. -/
def c1wor : City → FetchOutcome := fun _ => .retryError

/-- Energy oracle: every request succeeds with `c1edf`. -/
def c1eor : City → FetchOutcome := fun _ => .success c1edf

/-- An initially empty artifact directory. -/
def c1fs : FS := { weatherRaw := none, energyRaw := none, processed := none }

/-- The (date, city) key cells of a canonical-layout row. -/
def keyProj (r : List Cell) : Cell × Cell := (cellAt r 0, cellAt r 1)

/-- Strict chronological order between two (date, city) keys. -/
def dtPairLt (k1 k2 : Cell × Cell) : Prop :=
  ∃ d1 d2 : Int, k1.1 = Cell.dt d1 ∧ k2.1 = Cell.dt d2 ∧ d1 < d2

/-- The records of `df` belonging to city `s`, in table order. -/
def cityRowsOf (df : DF) (s : String) : List (List Cell) :=
  df.rows.filter (fun r => decide (rowCell df.cols "city" r = Cell.str s))

/-! ## Helper lemmas -/

lemma exc_bind_ok {α β : Type} (a : α) (f : α → Except String β) :
    (Except.ok a >>= f) = f a := rfl

lemma colIdx_isSome {cols : List String} {c : String} (h : c ∈ cols) :
    ∃ i, colIdx cols c = some i := by
  induction cols with
  | nil => cases h
  | cons x xs ih =>
    by_cases hx : x = c
    · exact ⟨0, by simp [colIdx, List.findIdx?_cons, hx]⟩
    · rcases List.mem_cons.mp h with h | h
      · exact absurd h.symm hx
      · obtain ⟨i, hi⟩ := ih h
        refine ⟨i + 1, ?_⟩
        simp only [colIdx, List.findIdx?_cons] at hi ⊢
        simp [hx, hi]

lemma series_ok {df : DF} {c : String} {i : Nat} (h : colIdx df.cols c = some i) :
    df.series c = .ok (df.rows.map (fun r => cellAt r i)) := by
  simp [DF.series, h]

lemma lookup_cons_ne {α β : Type} [DecidableEq α] {k a : α} {b : β} {t : List (α × β)}
    (h : ¬(k = a)) : List.lookup k ((a, b) :: t) = List.lookup k t := by
  simp [List.lookup, beq_eq_false_iff_ne.mpr h]

lemma lookup_cons_eq {α β : Type} [DecidableEq α] (a : α) (b : β) (t : List (α × β)) :
    List.lookup a ((a, b) :: t) = some b := by
  simp [List.lookup]

lemma lookup_append_right {β : Type} {k : String} {l1 l2 : List (String × β)}
    (h : ∀ p ∈ l1, ¬(p.1 = k)) :
    List.lookup k (l1 ++ l2) = List.lookup k l2 := by
  induction l1 with
  | nil => rfl
  | cons p t ih =>
    cases p with
    | mk a b =>
      rw [List.cons_append,
        lookup_cons_ne (fun he => h (a, b) (List.mem_cons_self _ _) he.symm)]
      exact ih (fun q hq => h q (List.mem_cons_of_mem _ hq))

lemma pdqc_eq_reportOf (today : Int) (df : DF) (hne : df.isEmpty = false)
    (h1 : "max_temp_F" ∈ df.cols) (h2 : "min_temp_F" ∈ df.cols)
    (h3 : "energy_consumption" ∈ df.cols) (hd : "date" ∈ df.cols)
    (dmax : Int) (hdm : maxDateOf df = some dmax) :
    perform_data_quality_checks today df = .ok (reportOf today df dmax) := by
  obtain ⟨i1, hi1⟩ := colIdx_isSome h1
  obtain ⟨i2, hi2⟩ := colIdx_isSome h2
  obtain ⟨i3, hi3⟩ := colIdx_isSome h3
  obtain ⟨i4, hi4⟩ := colIdx_isSome hd
  have hdm2 : maxDate (df.rows.map (fun r => cellAt r i4)) = some dmax := by
    unfold maxDateOf at hdm
    rw [hi4] at hdm
    exact hdm
  unfold perform_data_quality_checks
  rw [if_neg (by simp [hne])]
  rw [series_ok hi1, exc_bind_ok, series_ok hi2, exc_bind_ok,
    series_ok hi3, exc_bind_ok]
  rw [if_pos ⟨hd, by simp [hne]⟩]
  rw [series_ok hi4, exc_bind_ok, hdm2]
  unfold reportOf hiRows loRows negRows
  by_cases hfresh : 2 < today - dmax <;> simp [hfresh] <;> rfl

lemma keyOf_ite1 {c : Prop} [Decidable c] {k : String} {v w : QVal} :
    ∀ p ∈ (if c then [(k, v)] else [(k, w)]), p.1 = k := by
  intro p hp
  split at hp <;> simp_all

lemma keyOf_ite2 {c : Prop} [Decidable c] {k : String} {v : QVal} :
    ∀ p ∈ (if c then ([] : List (String × QVal)) else [(k, v)]), p.1 = k := by
  intro p hp
  split at hp <;> simp_all

lemma keyOf_ite3 {c : Prop} [Decidable c] {k : String} {v : QVal} :
    ∀ p ∈ (if c then [(k, v)] else ([] : List (String × QVal))), p.1 = k := by
  intro p hp
  split at hp <;> simp_all

lemma lookup_ite_head {c : Prop} [Decidable c] (k : String) (v w : QVal)
    (rest : List (String × QVal)) :
    List.lookup k ((if c then [(k, v)] else [(k, w)]) ++ rest) =
      some (if c then v else w) := by
  by_cases hc : c <;> simp only [hc, if_true, if_false] <;>
    exact lookup_cons_eq _ _ _

lemma reportOf_dup (today : Int) (df : DF) (dmax : Int) :
    (reportOf today df dmax).lookup "duplicates" =
      some (if (duplicatedRows df.rows).isEmpty then QVal.str "None"
            else QVal.recs (duplicatedRows df.rows)) := by
  unfold reportOf
  simp only [List.append_assoc]
  exact lookup_ite_head _ _ _ _

lemma reportOf_missing (today : Int) (df : DF) (dmax : Int) :
    (reportOf today df dmax).lookup "missing_values" =
      some (if (missingValues df).isEmpty then QVal.str "None"
            else QVal.counts (missingValues df)) := by
  unfold reportOf
  simp only [List.append_assoc]
  rw [lookup_append_right (by intro p hp; rw [keyOf_ite1 p hp]; decide)]
  exact lookup_ite_head _ _ _ _

lemma reportOf_high (today : Int) (df : DF) (dmax : Int) :
    (reportOf today df dmax).lookup "high_temp_outliers" =
      (if (hiRows df).isEmpty then none else some (QVal.recs (hiRows df))) := by
  unfold reportOf
  simp only [List.append_assoc]
  rw [lookup_append_right (by intro p hp; rw [keyOf_ite1 p hp]; decide),
    lookup_append_right (by intro p hp; rw [keyOf_ite1 p hp]; decide)]
  by_cases hh : (hiRows df).isEmpty
  · simp only [hh, if_true, List.nil_append]
    rw [lookup_append_right (by intro p hp; rw [keyOf_ite2 p hp]; decide),
      lookup_append_right (by intro p hp; rw [keyOf_ite3 p hp]; decide),
      lookup_append_right (by intro p hp; rw [keyOf_ite1 p hp]; decide)]
    rw [lookup_cons_ne (by decide : ¬("high_temp_outliers" = "data_freshness"))]
    rfl
  · simp only [hh, if_false]
    exact lookup_cons_eq _ _ _

lemma reportOf_low (today : Int) (df : DF) (dmax : Int) :
    (reportOf today df dmax).lookup "low_temp_outliers" =
      (if (loRows df).isEmpty then none else some (QVal.recs (loRows df))) := by
  unfold reportOf
  simp only [List.append_assoc]
  rw [lookup_append_right (by intro p hp; rw [keyOf_ite1 p hp]; decide),
    lookup_append_right (by intro p hp; rw [keyOf_ite1 p hp]; decide),
    lookup_append_right (by intro p hp; rw [keyOf_ite2 p hp]; decide)]
  by_cases hl : (loRows df).isEmpty
  · simp only [hl, if_true, List.nil_append]
    rw [lookup_append_right (by intro p hp; rw [keyOf_ite3 p hp]; decide),
      lookup_append_right (by intro p hp; rw [keyOf_ite1 p hp]; decide)]
    rw [lookup_cons_ne (by decide : ¬("low_temp_outliers" = "data_freshness"))]
    rfl
  · simp only [hl, if_false]
    exact lookup_cons_eq _ _ _

lemma reportOf_tempNone (today : Int) (df : DF) (dmax : Int) :
    (reportOf today df dmax).lookup "temp_outliers" =
      (if (hiRows df).isEmpty && (loRows df).isEmpty then some (QVal.str "None")
       else none) := by
  unfold reportOf
  simp only [List.append_assoc]
  rw [lookup_append_right (by intro p hp; rw [keyOf_ite1 p hp]; decide),
    lookup_append_right (by intro p hp; rw [keyOf_ite1 p hp]; decide),
    lookup_append_right (by intro p hp; rw [keyOf_ite2 p hp]; decide),
    lookup_append_right (by intro p hp; rw [keyOf_ite2 p hp]; decide)]
  by_cases ht : ((hiRows df).isEmpty && (loRows df).isEmpty) = true
  · simp only [ht, if_true]
    exact lookup_cons_eq _ _ _
  · have hx : ((hiRows df).isEmpty && (loRows df).isEmpty) = false := by
      rcases Bool.eq_false_or_eq_true ((hiRows df).isEmpty && (loRows df).isEmpty) with h | h
      · exact absurd h ht
      · exact h
    rw [hx]
    simp only [Bool.false_eq_true, if_false, List.nil_append]
    rw [lookup_append_right (by intro p hp; rw [keyOf_ite1 p hp]; decide)]
    rw [lookup_cons_ne (by decide : ¬("temp_outliers" = "data_freshness"))]
    rfl

lemma reportOf_neg (today : Int) (df : DF) (dmax : Int) :
    (reportOf today df dmax).lookup "negative_energy_consumption" =
      some (if (negRows df).isEmpty then QVal.str "None"
            else QVal.recs (negRows df)) := by
  unfold reportOf
  simp only [List.append_assoc]
  rw [lookup_append_right (by intro p hp; rw [keyOf_ite1 p hp]; decide),
    lookup_append_right (by intro p hp; rw [keyOf_ite1 p hp]; decide),
    lookup_append_right (by intro p hp; rw [keyOf_ite2 p hp]; decide),
    lookup_append_right (by intro p hp; rw [keyOf_ite2 p hp]; decide),
    lookup_append_right (by intro p hp; rw [keyOf_ite3 p hp]; decide)]
  exact lookup_ite_head _ _ _ _

lemma reportOf_fresh (today : Int) (df : DF) (dmax : Int) :
    (reportOf today df dmax).lookup "data_freshness" =
      some (QVal.str (if 2 < today - dmax then staleText dmax else "Fresh")) := by
  unfold reportOf
  simp only [List.append_assoc]
  rw [lookup_append_right (by intro p hp; rw [keyOf_ite1 p hp]; decide),
    lookup_append_right (by intro p hp; rw [keyOf_ite1 p hp]; decide),
    lookup_append_right (by intro p hp; rw [keyOf_ite2 p hp]; decide),
    lookup_append_right (by intro p hp; rw [keyOf_ite2 p hp]; decide),
    lookup_append_right (by intro p hp; rw [keyOf_ite3 p hp]; decide),
    lookup_append_right (by intro p hp; rw [keyOf_ite1 p hp]; decide)]
  exact lookup_cons_eq _ _ _

/-! ## Claims -/

/-- C10: the degenerate energy-only table that `clean_and_transform_data`
returns when the weather source is empty is non-empty and lacks the
`max_temp_F` column, and `perform_data_quality_checks` raises a `KeyError` on
it instead of returning a report — the audit stage is not total over the
transformer's possible outputs. -/
theorem c10_audit_not_total_on_energy_only_table :
    (clean_and_transform_data emptyDF c10energy).isEmpty = false ∧
    "max_temp_F" ∉ (clean_and_transform_data emptyDF c10energy).cols ∧
    perform_data_quality_checks 20100 (clean_and_transform_data emptyDF c10energy) =
      .error "KeyError: max_temp_F" := by
  refine ⟨by decide, by decide, ?_⟩
  rfl

/-- C6: for every non-empty table carrying the audited columns, the freshness
field of the quality report reads `Stale (latest date: …)` when the table's
maximum date is exactly 3 days before today, and `Fresh` when it is exactly
2 days before today. -/
theorem c6_freshness_boundary (today : Int) (df : DF) (hne : df.isEmpty = false)
    (h1 : "max_temp_F" ∈ df.cols) (h2 : "min_temp_F" ∈ df.cols)
    (h3 : "energy_consumption" ∈ df.cols) (hd : "date" ∈ df.cols) :
    (maxDateOf df = some (today - 3) →
      ∃ rep, perform_data_quality_checks today df = .ok rep ∧
        rep.lookup "data_freshness" = some (QVal.str (staleText (today - 3)))) ∧
    (maxDateOf df = some (today - 2) →
      ∃ rep, perform_data_quality_checks today df = .ok rep ∧
        rep.lookup "data_freshness" = some (QVal.str "Fresh")) := by
  constructor
  · intro hdm
    refine ⟨_, pdqc_eq_reportOf today df hne h1 h2 h3 hd _ hdm, ?_⟩
    rw [reportOf_fresh, if_pos (by omega)]
  · intro hdm
    refine ⟨_, pdqc_eq_reportOf today df hne h1 h2 h3 hd _ hdm, ?_⟩
    rw [reportOf_fresh, if_neg (by omega)]

theorem c6_freshness_boundary_witness :
    (c4df.isEmpty = false ∧ "max_temp_F" ∈ c4df.cols ∧ "min_temp_F" ∈ c4df.cols ∧
      "energy_consumption" ∈ c4df.cols ∧ "date" ∈ c4df.cols ∧
      maxDateOf c4df = some (20103 - 3) ∧ maxDateOf c4df = some (20102 - 2)) ∧
    (∃ rep, perform_data_quality_checks 20103 c4df = .ok rep ∧
      rep.lookup "data_freshness" = some (QVal.str (staleText (20103 - 3)))) ∧
    (∃ rep, perform_data_quality_checks 20102 c4df = .ok rep ∧
      rep.lookup "data_freshness" = some (QVal.str "Fresh")) :=
  ⟨by decide,
    (c6_freshness_boundary 20103 c4df (by decide) (by decide) (by decide) (by decide)
      (by decide)).1 (by decide),
    (c6_freshness_boundary 20102 c4df (by decide) (by decide) (by decide) (by decide)
      (by decide)).2 (by decide)⟩

/-- C7: in the quality report of a table carrying the audited columns, a
record is flagged as a high temperature outlier iff its `max_temp_F` value is
strictly greater than 130 (so 131 is flagged and 130 is not). -/
theorem c7_high_outlier_iff (today : Int) (df : DF) (hne : df.isEmpty = false)
    (h1 : "max_temp_F" ∈ df.cols) (h2 : "min_temp_F" ∈ df.cols)
    (h3 : "energy_consumption" ∈ df.cols) (hd : "date" ∈ df.cols)
    (dmax : Int) (hdm : maxDateOf df = some dmax) :
    ∃ rep, perform_data_quality_checks today df = .ok rep ∧
      ∀ r ∈ df.rows, ∀ q : ℚ, rowCell df.cols "max_temp_F" r = Cell.num q →
        ((∃ l, rep.lookup "high_temp_outliers" = some (QVal.recs l) ∧ r ∈ l) ↔
          130 < q) := by
  refine ⟨_, pdqc_eq_reportOf today df hne h1 h2 h3 hd dmax hdm, ?_⟩
  intro r hr q hq
  rw [reportOf_high]
  by_cases hh : (hiRows df).isEmpty
  · rw [if_pos hh]
    constructor
    · rintro ⟨l, hl, _⟩
      cases hl
    · intro hgt
      exfalso
      have hmem : r ∈ hiRows df :=
        List.mem_filter.mpr ⟨hr, by simp [cellGtNum, hq, hgt]⟩
      rw [List.isEmpty_iff.mp hh] at hmem
      cases hmem
  · rw [if_neg hh]
    constructor
    · rintro ⟨l, hl, hrl⟩
      have hle : QVal.recs (hiRows df) = QVal.recs l := Option.some.inj hl
      have hel : hiRows df = l := by
        cases hle
        rfl
      rw [← hel] at hrl
      have hpred := (List.mem_filter.mp hrl).2
      rw [hq] at hpred
      simpa [cellGtNum] using hpred
    · intro hgt
      exact ⟨hiRows df, rfl, List.mem_filter.mpr ⟨hr, by simp [cellGtNum, hq, hgt]⟩⟩

theorem c7_high_outlier_iff_witness :
    (c7df.isEmpty = false ∧ "max_temp_F" ∈ c7df.cols ∧ "min_temp_F" ∈ c7df.cols ∧
      "energy_consumption" ∈ c7df.cols ∧ "date" ∈ c7df.cols ∧
      maxDateOf c7df = some 20100) ∧
    (∃ rep, perform_data_quality_checks 20101 c7df = .ok rep ∧
      ∀ r ∈ c7df.rows, ∀ q : ℚ, rowCell c7df.cols "max_temp_F" r = Cell.num q →
        ((∃ l, rep.lookup "high_temp_outliers" = some (QVal.recs l) ∧ r ∈ l) ↔
          130 < q)) :=
  ⟨by decide,
    c7_high_outlier_iff 20101 c7df (by decide) (by decide) (by decide) (by decide)
      (by decide) 20100 (by decide)⟩

/-- C4 (corrected): the report of an empty table is empty; for a non-empty
table carrying the audited columns the fields `duplicates`, `missing_values`,
`negative_energy_consumption` and `data_freshness` are always present with
explicit "None"/"Fresh" values when clean, but `high_temp_outliers` and
`low_temp_outliers` are present only when the corresponding outliers exist,
a combined `temp_outliers = "None"` field appearing instead when neither
does. -/
theorem c4_report_fields (today : Int) :
    (∀ df : DF, df.isEmpty = true → perform_data_quality_checks today df = .ok []) ∧
    (∀ df : DF, df.isEmpty = false → "max_temp_F" ∈ df.cols → "min_temp_F" ∈ df.cols →
      "energy_consumption" ∈ df.cols → "date" ∈ df.cols →
      ∀ dmax : Int, maxDateOf df = some dmax →
      ∃ rep, perform_data_quality_checks today df = .ok rep ∧
        rep.lookup "duplicates" = some (if (duplicatedRows df.rows).isEmpty
          then QVal.str "None" else QVal.recs (duplicatedRows df.rows)) ∧
        rep.lookup "missing_values" = some (if (missingValues df).isEmpty
          then QVal.str "None" else QVal.counts (missingValues df)) ∧
        rep.lookup "negative_energy_consumption" = some (if (negRows df).isEmpty
          then QVal.str "None" else QVal.recs (negRows df)) ∧
        rep.lookup "data_freshness" =
          some (QVal.str (if 2 < today - dmax then staleText dmax else "Fresh")) ∧
        rep.lookup "high_temp_outliers" =
          (if (hiRows df).isEmpty then none else some (QVal.recs (hiRows df))) ∧
        rep.lookup "low_temp_outliers" =
          (if (loRows df).isEmpty then none else some (QVal.recs (loRows df))) ∧
        rep.lookup "temp_outliers" =
          (if (hiRows df).isEmpty && (loRows df).isEmpty then some (QVal.str "None")
           else none)) := by
  constructor
  · intro df he
    simp [perform_data_quality_checks, he]
  · intro df hne h1 h2 h3 hd dmax hdm
    exact ⟨_, pdqc_eq_reportOf today df hne h1 h2 h3 hd dmax hdm,
      reportOf_dup today df dmax, reportOf_missing today df dmax,
      reportOf_neg today df dmax, reportOf_fresh today df dmax,
      reportOf_high today df dmax, reportOf_low today df dmax,
      reportOf_tempNone today df dmax⟩

theorem c4_report_fields_witness :
    (c4df.isEmpty = true ∨ True) ∧
    (emptyDF.isEmpty = true ∧ perform_data_quality_checks 20101 emptyDF = .ok []) ∧
    (c4df.isEmpty = false ∧ "max_temp_F" ∈ c4df.cols ∧ "min_temp_F" ∈ c4df.cols ∧
      "energy_consumption" ∈ c4df.cols ∧ "date" ∈ c4df.cols ∧
      maxDateOf c4df = some 20100) ∧
    (∃ rep, perform_data_quality_checks 20101 c4df = .ok rep ∧
      rep.lookup "duplicates" = some (if (duplicatedRows c4df.rows).isEmpty
        then QVal.str "None" else QVal.recs (duplicatedRows c4df.rows)) ∧
      rep.lookup "missing_values" = some (if (missingValues c4df).isEmpty
        then QVal.str "None" else QVal.counts (missingValues c4df)) ∧
      rep.lookup "negative_energy_consumption" = some (if (negRows c4df).isEmpty
        then QVal.str "None" else QVal.recs (negRows c4df)) ∧
      rep.lookup "data_freshness" =
        some (QVal.str (if 2 < (20101 : Int) - 20100 then staleText 20100 else "Fresh")) ∧
      rep.lookup "high_temp_outliers" =
        (if (hiRows c4df).isEmpty then none else some (QVal.recs (hiRows c4df))) ∧
      rep.lookup "low_temp_outliers" =
        (if (loRows c4df).isEmpty then none else some (QVal.recs (loRows c4df))) ∧
      rep.lookup "temp_outliers" =
        (if (hiRows c4df).isEmpty && (loRows c4df).isEmpty then some (QVal.str "None")
         else none)) :=
  ⟨Or.inr trivial,
    ⟨by decide, (c4_report_fields 20101).1 emptyDF (by decide)⟩,
    by decide,
    (c4_report_fields 20101).2 c4df (by decide) (by decide) (by decide) (by decide)
      (by decide) 20100 (by decide)⟩

/-- C4 counterexample: a non-empty, defect-free table whose report omits the
`high_temp_outliers` and `low_temp_outliers` fields entirely (a combined
`temp_outliers` field appears instead), refuting "the quality report contains
every report field … with an explicit None value". -/
theorem c4_missing_field_counterexample :
    c4df.isEmpty = false ∧
    perform_data_quality_checks 20101 c4df =
      .ok [("duplicates", QVal.str "None"), ("missing_values", QVal.str "None"),
           ("temp_outliers", QVal.str "None"),
           ("negative_energy_consumption", QVal.str "None"),
           ("data_freshness", QVal.str "Fresh")] ∧
    List.lookup "high_temp_outliers"
      [("duplicates", QVal.str "None"), ("missing_values", QVal.str "None"),
       ("temp_outliers", QVal.str "None"),
       ("negative_energy_consumption", QVal.str "None"),
       ("data_freshness", QVal.str "Fresh")] = (none : Option QVal) ∧
    List.lookup "low_temp_outliers"
      [("duplicates", QVal.str "None"), ("missing_values", QVal.str "None"),
       ("temp_outliers", QVal.str "None"),
       ("negative_energy_consumption", QVal.str "None"),
       ("data_freshness", QVal.str "Fresh")] = (none : Option QVal) := by
  refine ⟨by decide, ?_, by decide, by decide⟩
  rfl

/-! ## Structure of the transformed table (towards C2, C3, C5) -/

lemma mem_of_mem_dedupFirstAux [DecidableEq α] {seen : List α} {l : List α} {x : α}
    (h : x ∈ dedupFirstAux seen l) : x ∈ l := by
  induction l generalizing seen with
  | nil => cases h
  | cons y ys ih =>
    unfold dedupFirstAux at h
    split at h
    · exact List.mem_cons_of_mem _ (ih h)
    · rcases List.mem_cons.mp h with h | h
      · exact h ▸ List.mem_cons_self _ _
      · exact List.mem_cons_of_mem _ (ih h)

lemma mem_of_mem_dedupFirst [DecidableEq α] {l : List α} {x : α}
    (h : x ∈ dedupFirst l) : x ∈ l :=
  mem_of_mem_dedupFirstAux h

lemma dedupFirstAux_disjoint [DecidableEq α] {seen : List α} {l : List α} {x : α}
    (hx : x ∈ seen) : x ∉ dedupFirstAux seen l := by
  induction l generalizing seen with
  | nil => intro h; cases h
  | cons y ys ih =>
    intro h
    unfold dedupFirstAux at h
    split at h
    · exact ih hx h
    · rcases List.mem_cons.mp h with h | h
      · subst h; exact (by assumption : x ∉ seen) hx
      · exact ih (List.mem_cons_of_mem _ hx) h

lemma nodup_dedupFirstAux [DecidableEq α] (seen : List α) (l : List α) :
    (dedupFirstAux seen l).Nodup := by
  induction l generalizing seen with
  | nil => exact List.nodup_nil
  | cons y ys ih =>
    unfold dedupFirstAux
    split
    · exact ih seen
    · exact List.nodup_cons.mpr ⟨dedupFirstAux_disjoint (List.mem_cons_self _ _), ih _⟩

lemma nodup_dedupFirst [DecidableEq α] (l : List α) : (dedupFirst l).Nodup :=
  nodup_dedupFirstAux [] l

lemma duplicatedRowsAux_eq_nil {seen : List (List Cell)} {l : List (List Cell)}
    (hn : l.Nodup) (hs : ∀ x ∈ l, x ∉ seen) : duplicatedRowsAux seen l = [] := by
  induction l generalizing seen with
  | nil => rfl
  | cons y ys ih =>
    unfold duplicatedRowsAux
    rw [if_neg (hs y (List.mem_cons_self _ _))]
    refine ih (List.nodup_cons.mp hn).2 ?_
    intro x hx
    intro hmem
    rcases List.mem_cons.mp hmem with h | h
    · exact (List.nodup_cons.mp hn).1 (h ▸ hx)
    · exact hs x (List.mem_cons_of_mem _ hx) h

lemma duplicatedRows_eq_nil {l : List (List Cell)} (hn : l.Nodup) :
    duplicatedRows l = [] :=
  duplicatedRowsAux_eq_nil hn (by intro x _ h; cases h)

lemma mem_selectCols_length {df : DF} {cs : List String} {r : List Cell}
    (hr : r ∈ (selectCols df cs).rows) : r.length = cs.length := by
  unfold selectCols at hr
  simp only [List.mem_map] at hr
  obtain ⟨o, _, ho⟩ := hr
  rw [← ho, List.length_map]

lemma mem_joined_shape {w e : DF} {r : List Cell} (hr : r ∈ (joinedDF w e).rows) :
    ∃ ra en, r = ra ++ [en] ∧ ra ∈ (wSel w).rows ∧ ra.length = 4 := by
  unfold joinedDF mergeInner at hr
  simp only [List.mem_flatMap, List.mem_filterMap] at hr
  obtain ⟨ra, hra, rb, _, hcond⟩ := hr
  split at hcond
  · refine ⟨ra, _, (Option.some.inj hcond).symm, hra, mem_selectCols_length hra⟩
  · cases hcond

lemma joined_row_length {w e : DF} {r : List Cell} (hr : r ∈ (joinedDF w e).rows) :
    r.length = 5 := by
  obtain ⟨ra, en, hre, _, hlen⟩ := mem_joined_shape hr
  rw [hre, List.length_append, hlen]
  rfl

lemma addChangeAux_shape {cols : List String} {st : List (Cell × Cell)}
    {rows : List (List Cell)} {r : List Cell} (hr : r ∈ addChangeAux cols st rows) :
    ∃ r0 ∈ rows, ∃ c, r = r0 ++ [c] := by
  induction rows generalizing st with
  | nil => cases hr
  | cons y ys ih =>
    unfold addChangeAux at hr
    rcases hy : rowCell cols "city" y with s | q | d | b
    all_goals rw [hy] at hr
    case null =>
      rcases List.mem_cons.mp hr with h | h
      · exact ⟨y, List.mem_cons_self _ _, Cell.null, h⟩
      · obtain ⟨r0, hr0, c, hc⟩ := ih h
        exact ⟨r0, List.mem_cons_of_mem _ hr0, c, hc⟩
    all_goals
      rcases List.mem_cons.mp hr with h | h
      · exact ⟨y, List.mem_cons_self _ _, _, h⟩
      · obtain ⟨r0, hr0, c, hc⟩ := ih h
        exact ⟨r0, List.mem_cons_of_mem _ hr0, c, hc⟩

lemma mem_transformed_shape {w e : DF} {r : List Cell}
    (hr : r ∈ (transformedDF w e).rows) :
    ∃ r0, r0 ∈ (joinedDF w e).rows ∧ r0.length = 5 ∧
      cellGeNum (cellAt r0 4) 0 = true ∧ ∃ c dn wk, r = r0 ++ [c, dn, wk] := by
  unfold transformedDF addDayFeatures at hr
  simp only [List.mem_map] at hr
  obtain ⟨r1, hr1, hre⟩ := hr
  unfold addEnergyChange at hr1
  obtain ⟨r0, hr0, c, hc⟩ := addChangeAux_shape hr1
  unfold filterNonNegEnergy at hr0
  have hmem := List.mem_filter.mp hr0
  have hjm : r0 ∈ (joinedDF w e).rows := mem_of_mem_dedupFirst hmem.1
  have hlen : r0.length = 5 := joined_row_length hjm
  have hge : cellGeNum (cellAt r0 4) 0 = true := by
    have := hmem.2
    simpa [rowCell, colIdx, cellAt] using this
  subst hc
  rw [List.append_assoc] at hre
  exact ⟨r0, hjm, hlen, hge, c, _, _, hre.symm⟩

lemma transformed_cols (w e : DF) :
    (transformedDF w e).cols =
      ["date", "city", "max_temp_F", "min_temp_F", "energy_consumption",
       "energy_change", "day_of_week", "is_weekend"] := rfl

lemma rowCell_transformed_energy {w e : DF} {r0 rest : List Cell}
    (hlen : r0.length = 5) :
    rowCell (transformedDF w e).cols "energy_consumption" (r0 ++ rest) =
      cellAt r0 4 := by
  show cellAt (r0 ++ rest) 4 = cellAt r0 4
  unfold cellAt
  exact List.getD_append _ _ _ _ (by omega)

lemma clean_eq_transformed (w e : DF) (hw : w.isEmpty = false) (he : e.isEmpty = false)
    (hw2 : (wSel w).isEmpty = false) (he2 : (eSel e).isEmpty = false)
    (hm : (joinedDF w e).isEmpty = false) :
    clean_and_transform_data w e = transformedDF w e := by
  unfold clean_and_transform_data transformedDF joinedDF
  unfold wSel at hw2
  unfold eSel at he2
  unfold joinedDF wSel eSel at hm
  simp only [hw, he, Bool.false_eq_true, if_false, hw2, he2, hm, Bool.not_false,
    Bool.and_self, if_true]
  rfl

lemma transformed_energy_nonneg (w e : DF) :
    ∀ r ∈ (transformedDF w e).rows,
      cellGeNum (rowCell (transformedDF w e).cols "energy_consumption" r) 0 = true := by
  intro r hr
  obtain ⟨r0, _, hlen, hge, c, dn, wk, hre⟩ := mem_transformed_shape hr
  rw [hre, rowCell_transformed_energy hlen]
  exact hge

lemma negRows_transformed_nil (w e : DF) : negRows (transformedDF w e) = [] := by
  unfold negRows
  rw [List.filter_eq_nil_iff]
  intro r hr
  have hge := transformed_energy_nonneg w e r hr
  cases hcell : rowCell (transformedDF w e).cols "energy_consumption" r with
  | num q =>
    rw [hcell] at hge
    simp only [cellGeNum, decide_eq_true_eq] at hge
    simp only [cellLtNum, decide_eq_true_eq]
    intro h
    exact absurd hge (not_le.mpr h)
  | str s => rw [hcell] at hge; simp [cellGeNum] at hge
  | dt d => rw [hcell] at hge; simp [cellGeNum] at hge
  | bool b => rw [hcell] at hge; simp [cellGeNum] at hge
  | null => rw [hcell] at hge; simp [cellGeNum] at hge

lemma addChangeAux_nodup {cols : List String} {st : List (Cell × Cell)}
    {rows : List (List Cell)} (hn : rows.Nodup) (hlen : ∀ r ∈ rows, r.length = 5) :
    (addChangeAux cols st rows).Nodup := by
  induction rows generalizing st with
  | nil => exact List.nodup_nil
  | cons y ys ih =>
    have hn2 := List.nodup_cons.mp hn
    have step : ∀ (st2 : List (Cell × Cell)) (d : Cell),
        ((y ++ [d]) :: addChangeAux cols st2 ys).Nodup := by
      intro st2 d
      refine List.nodup_cons.mpr ⟨?_, ih hn2.2 (fun r h => hlen r (List.mem_cons_of_mem _ h)) ⟩
      intro hmem
      obtain ⟨r0, hr0, c, hc⟩ := addChangeAux_shape hmem
      have hyl : y.length = r0.length := by
        rw [hlen y (List.mem_cons_self _ _), hlen r0 (List.mem_cons_of_mem _ hr0)]
      have := (List.append_inj hc hyl).1
      exact hn2.1 (this ▸ hr0)
    unfold addChangeAux
    rcases hy : rowCell cols "city" y with s | q | d | b
    all_goals exact step _ _

lemma addChangeAux_length {cols : List String} {st : List (Cell × Cell)}
    {rows : List (List Cell)} (hlen : ∀ r ∈ rows, r.length = 5) :
    ∀ r ∈ addChangeAux cols st rows, r.length = 6 := by
  intro r hr
  obtain ⟨r0, hr0, c, hc⟩ := addChangeAux_shape hr
  rw [hc, List.length_append, hlen r0 hr0]
  rfl

lemma transformed_nodup (w e : DF) : (transformedDF w e).rows.Nodup := by
  have hbase : (filterNonNegEnergy
      { joinedDF w e with rows := dedupFirst (joinedDF w e).rows }).rows.Nodup := by
    exact List.Nodup.filter _ (nodup_dedupFirst _)
  have hblen : ∀ r ∈ (filterNonNegEnergy
      { joinedDF w e with rows := dedupFirst (joinedDF w e).rows }).rows, r.length = 5 := by
    intro r hr
    have := List.mem_filter.mp hr
    exact joined_row_length (mem_of_mem_dedupFirst this.1)
  have hmid : (addEnergyChange (filterNonNegEnergy
      { joinedDF w e with rows := dedupFirst (joinedDF w e).rows })).rows.Nodup :=
    addChangeAux_nodup hbase hblen
  have hmlen : ∀ r ∈ addChangeAux (filterNonNegEnergy
      { joinedDF w e with rows := dedupFirst (joinedDF w e).rows }).cols []
      (filterNonNegEnergy
        { joinedDF w e with rows := dedupFirst (joinedDF w e).rows }).rows,
      r.length = 6 := addChangeAux_length hblen
  unfold transformedDF addDayFeatures
  refine (List.nodup_map_iff_inj_on ?_).mpr ?_
  · exact hmid
  · intro r1 h1 r2 h2 heq
    have hl : r1.length = r2.length := by
      rw [hmlen r1 h1, hmlen r2 h2]
    exact (List.append_inj heq hl).1

/-! ## Concrete evaluation of the transformer (kernel-stuck rational
arithmetic is evaluated by `simp`/`norm_num` instead of `decide`) -/

lemma pivot_rawW : pivotWeather rawW =
    { cols := ["date", "city", "TMAX", "TMIN"],
      rows := [[.dt 20000, .str "A", .num 70, .num 50],
               [.dt 20001, .str "A", .num 75, .num 55]] } := by
  have hkeys : rawW.rows.map (fun r =>
      (rowCell rawW.cols "date" r, rowCell rawW.cols "city" r)) =
      [(Cell.dt 20000, Cell.str "A"), (Cell.dt 20000, Cell.str "A"),
       (Cell.dt 20001, Cell.str "A"), (Cell.dt 20001, Cell.str "A")] := by decide
  have hd : dedupFirst
      [(Cell.dt 20000, Cell.str "A"), (Cell.dt 20000, Cell.str "A"),
       (Cell.dt 20001, Cell.str "A"), (Cell.dt 20001, Cell.str "A")] =
      [(Cell.dt 20000, Cell.str "A"), (Cell.dt 20001, Cell.str "A")] := by decide
  have hs : List.insertionSort keyLeR
      [(Cell.dt 20000, Cell.str "A"), (Cell.dt 20001, Cell.str "A")] =
      [(Cell.dt 20000, Cell.str "A"), (Cell.dt 20001, Cell.str "A")] := by decide
  have hm1 : meanCell (pivotVals rawW (Cell.dt 20000, Cell.str "A") "TMAX") = Cell.num 70 := by
    have h : pivotVals rawW (Cell.dt 20000, Cell.str "A") "TMAX" = [Cell.num 70] := by decide
    rw [h]; simp [meanCell]
  have hm2 : meanCell (pivotVals rawW (Cell.dt 20000, Cell.str "A") "TMIN") = Cell.num 50 := by
    have h : pivotVals rawW (Cell.dt 20000, Cell.str "A") "TMIN" = [Cell.num 50] := by decide
    rw [h]; simp [meanCell]
  have hm3 : meanCell (pivotVals rawW (Cell.dt 20001, Cell.str "A") "TMAX") = Cell.num 75 := by
    have h : pivotVals rawW (Cell.dt 20001, Cell.str "A") "TMAX" = [Cell.num 75] := by decide
    rw [h]; simp [meanCell]
  have hm4 : meanCell (pivotVals rawW (Cell.dt 20001, Cell.str "A") "TMIN") = Cell.num 55 := by
    have h : pivotVals rawW (Cell.dt 20001, Cell.str "A") "TMIN" = [Cell.num 55] := by decide
    rw [h]; simp [meanCell]
  unfold pivotWeather
  rw [hkeys]
  simp only [hd, hs, List.filterMap_cons, List.filterMap_nil, hm1, hm2, hm3, hm4]
  decide

lemma wSel_rawW : wSel rawW =
    { cols := ["date", "city", "max_temp_F", "min_temp_F"],
      rows := [[.dt 20000, .str "A", .num 70, .num 50],
               [.dt 20001, .str "A", .num 75, .num 55]] } := by
  unfold wSel
  rw [pivot_rawW]
  decide

lemma joined_c2 : joinedDF rawW c2e =
    { cols := ["date", "city", "max_temp_F", "min_temp_F", "energy_consumption"],
      rows := [[.dt 20000, .str "A", .num 70, .num 50, .num (-5)],
               [.dt 20001, .str "A", .num 75, .num 55, .num 12]] } := by
  unfold joinedDF
  rw [wSel_rawW]
  decide

lemma clean_c2 : clean_and_transform_data rawW c2e =
    { cols := ["date", "city", "max_temp_F", "min_temp_F", "energy_consumption",
               "energy_change", "day_of_week", "is_weekend"],
      rows := [[.dt 20001, .str "A", .num 75, .num 55, .num 12, .null,
                .str "Saturday", .bool true]] } := by
  rw [clean_eq_transformed rawW c2e (by decide) (by decide)
    (by rw [wSel_rawW]; decide) (by decide) (by rw [joined_c2]; decide)]
  unfold transformedDF
  rw [joined_c2]
  decide

lemma joined_c3 : joinedDF rawW c3e =
    { cols := ["date", "city", "max_temp_F", "min_temp_F", "energy_consumption"],
      rows := [[.dt 20000, .str "A", .num 70, .num 50, .num 10],
               [.dt 20001, .str "A", .num 75, .num 55, .num 12],
               [.dt 20001, .str "A", .num 75, .num 55, .num 12]] } := by
  unfold joinedDF
  rw [wSel_rawW]
  decide

lemma clean_c3 : clean_and_transform_data rawW c3e =
    { cols := ["date", "city", "max_temp_F", "min_temp_F", "energy_consumption",
               "energy_change", "day_of_week", "is_weekend"],
      rows := [[.dt 20000, .str "A", .num 70, .num 50, .num 10, .null,
                .str "Friday", .bool false],
               [.dt 20001, .str "A", .num 75, .num 55, .num 12, .num 2,
                .str "Saturday", .bool true]] } := by
  rw [clean_eq_transformed rawW c3e (by decide) (by decide)
    (by rw [wSel_rawW]; decide) (by decide) (by rw [joined_c3]; decide)]
  unfold transformedDF
  rw [joined_c3]
  have hbase : filterNonNegEnergy
      { cols := ["date", "city", "max_temp_F", "min_temp_F", "energy_consumption"],
        rows := dedupFirst
          [[Cell.dt 20000, Cell.str "A", Cell.num 70, Cell.num 50, Cell.num 10],
           [Cell.dt 20001, Cell.str "A", Cell.num 75, Cell.num 55, Cell.num 12],
           [Cell.dt 20001, Cell.str "A", Cell.num 75, Cell.num 55, Cell.num 12]] } =
      { cols := ["date", "city", "max_temp_F", "min_temp_F", "energy_consumption"],
        rows := [[Cell.dt 20000, Cell.str "A", Cell.num 70, Cell.num 50, Cell.num 10],
                 [Cell.dt 20001, Cell.str "A", Cell.num 75, Cell.num 55, Cell.num 12]] } := by
    decide
  rw [hbase]
  have hchg : addEnergyChange
      { cols := ["date", "city", "max_temp_F", "min_temp_F", "energy_consumption"],
        rows := [[Cell.dt 20000, Cell.str "A", Cell.num 70, Cell.num 50, Cell.num 10],
                 [Cell.dt 20001, Cell.str "A", Cell.num 75, Cell.num 55, Cell.num 12]] } =
      { cols := ["date", "city", "max_temp_F", "min_temp_F", "energy_consumption",
                 "energy_change"],
        rows := [[Cell.dt 20000, Cell.str "A", Cell.num 70, Cell.num 50, Cell.num 10,
                  Cell.null],
                 [Cell.dt 20001, Cell.str "A", Cell.num 75, Cell.num 55, Cell.num 12,
                  Cell.num 2]] } := by
    have hsub : subCell (Cell.num 12) (Cell.num 10) = Cell.num 2 := by
      show Cell.num (12 - 10) = Cell.num 2
      norm_num
    have hc1 : rowCell ["date", "city", "max_temp_F", "min_temp_F", "energy_consumption"]
        "city" [Cell.dt 20000, Cell.str "A", Cell.num 70, Cell.num 50, Cell.num 10] =
        Cell.str "A" := by decide
    have hc2 : rowCell ["date", "city", "max_temp_F", "min_temp_F", "energy_consumption"]
        "city" [Cell.dt 20001, Cell.str "A", Cell.num 75, Cell.num 55, Cell.num 12] =
        Cell.str "A" := by decide
    have he1 : rowCell ["date", "city", "max_temp_F", "min_temp_F", "energy_consumption"]
        "energy_consumption" [Cell.dt 20000, Cell.str "A", Cell.num 70, Cell.num 50,
          Cell.num 10] = Cell.num 10 := by decide
    have he2 : rowCell ["date", "city", "max_temp_F", "min_temp_F", "energy_consumption"]
        "energy_consumption" [Cell.dt 20001, Cell.str "A", Cell.num 75, Cell.num 55,
          Cell.num 12] = Cell.num 12 := by decide
    unfold addEnergyChange
    simp only [addChangeAux, hc1, hc2, he1, he2, assocSet, List.lookup, beq_self_eq_true]
    simp only [hsub]
    decide
  rw [hchg]
  decide

/-- C2 (corrected): rows with negative energy_consumption are excluded from
the table used for feature derivation, but — contrary to the claim — they are
also invisible to the quality audit: the pipeline audits the post-filter
transformed table, every row of which has non-negative energy, so the
report's negative_energy_consumption field always reads "None". -/
theorem c2_negative_rows_invisible_to_audit (today : Int) (w e : DF)
    (hw : w.isEmpty = false) (he : e.isEmpty = false)
    (hw2 : (wSel w).isEmpty = false) (he2 : (eSel e).isEmpty = false)
    (hm : (joinedDF w e).isEmpty = false)
    (hne : (clean_and_transform_data w e).isEmpty = false)
    (dmax : Int) (hdm : maxDateOf (clean_and_transform_data w e) = some dmax) :
    (∀ r ∈ (clean_and_transform_data w e).rows,
      cellGeNum (rowCell (clean_and_transform_data w e).cols "energy_consumption" r) 0
        = true) ∧
    ∃ rep, perform_data_quality_checks today (clean_and_transform_data w e) = .ok rep ∧
      rep.lookup "negative_energy_consumption" = some (QVal.str "None") := by
  rw [clean_eq_transformed w e hw he hw2 he2 hm] at hne hdm ⊢
  refine ⟨transformed_energy_nonneg w e, ?_⟩
  refine ⟨_, pdqc_eq_reportOf today (transformedDF w e) hne
    (by rw [transformed_cols]; decide) (by rw [transformed_cols]; decide)
    (by rw [transformed_cols]; decide) (by rw [transformed_cols]; decide) dmax hdm, ?_⟩
  rw [reportOf_neg, negRows_transformed_nil]
  rfl

theorem c2_negative_rows_invisible_to_audit_witness :
    (rawW.isEmpty = false ∧ c2e.isEmpty = false ∧ (wSel rawW).isEmpty = false ∧
      (eSel c2e).isEmpty = false ∧ (joinedDF rawW c2e).isEmpty = false ∧
      (clean_and_transform_data rawW c2e).isEmpty = false ∧
      maxDateOf (clean_and_transform_data rawW c2e) = some 20001) ∧
    (∀ r ∈ (clean_and_transform_data rawW c2e).rows,
      cellGeNum (rowCell (clean_and_transform_data rawW c2e).cols "energy_consumption" r) 0
        = true) ∧
    (∃ rep, perform_data_quality_checks 20003 (clean_and_transform_data rawW c2e) = .ok rep ∧
      rep.lookup "negative_energy_consumption" = some (QVal.str "None")) :=
  ⟨⟨by decide, by decide, by rw [wSel_rawW]; decide, by decide, by rw [joined_c2]; decide,
    by rw [clean_c2]; decide, by rw [clean_c2]; decide⟩,
    c2_negative_rows_invisible_to_audit 20003 rawW c2e (by decide) (by decide)
      (by rw [wSel_rawW]; decide) (by decide) (by rw [joined_c2]; decide)
      (by rw [clean_c2]; decide) 20001 (by rw [clean_c2]; decide)⟩

/-- C2 counterexample: the join of `rawW` and `c2e` contains a row with
energy −5; that row is excluded from the transformed table (as the claim
says) but does NOT appear in the quality report the pipeline produces for the
run — the negative_energy_consumption field reads "None", refuting the second
half of the claim. -/
theorem c2_counterexample :
    ([Cell.dt 20000, Cell.str "A", Cell.num 70, Cell.num 50, Cell.num (-5)]
        ∈ (joinedDF rawW c2e).rows) ∧
    (∀ r ∈ (clean_and_transform_data rawW c2e).rows,
      rowCell (clean_and_transform_data rawW c2e).cols "energy_consumption" r ≠
        Cell.num (-5)) ∧
    (perform_data_quality_checks 20003 (clean_and_transform_data rawW c2e)).map
      (fun rep => rep.lookup "negative_energy_consumption") =
        .ok (some (QVal.str "None")) := by
  refine ⟨by rw [joined_c2]; decide, by rw [clean_c2]; decide, ?_⟩
  rw [clean_c2]
  rfl

/-- C3 (corrected): deduplication of the joined table happens during
transformation, before the quality report is produced — silently: the
transformed table the pipeline audits has no duplicate rows left, and the
report's duplicates field always reads "None". -/
theorem c3_dedup_before_report (today : Int) (w e : DF)
    (hw : w.isEmpty = false) (he : e.isEmpty = false)
    (hw2 : (wSel w).isEmpty = false) (he2 : (eSel e).isEmpty = false)
    (hm : (joinedDF w e).isEmpty = false)
    (hne : (clean_and_transform_data w e).isEmpty = false)
    (dmax : Int) (hdm : maxDateOf (clean_and_transform_data w e) = some dmax) :
    (clean_and_transform_data w e).rows.Nodup ∧
    ∃ rep, perform_data_quality_checks today (clean_and_transform_data w e) = .ok rep ∧
      rep.lookup "duplicates" = some (QVal.str "None") := by
  rw [clean_eq_transformed w e hw he hw2 he2 hm] at hne hdm ⊢
  refine ⟨transformed_nodup w e, ?_⟩
  refine ⟨_, pdqc_eq_reportOf today (transformedDF w e) hne
    (by rw [transformed_cols]; decide) (by rw [transformed_cols]; decide)
    (by rw [transformed_cols]; decide) (by rw [transformed_cols]; decide) dmax hdm, ?_⟩
  rw [reportOf_dup, duplicatedRows_eq_nil (transformed_nodup w e)]
  rfl

theorem c3_dedup_before_report_witness :
    (rawW.isEmpty = false ∧ c3e.isEmpty = false ∧ (wSel rawW).isEmpty = false ∧
      (eSel c3e).isEmpty = false ∧ (joinedDF rawW c3e).isEmpty = false ∧
      (clean_and_transform_data rawW c3e).isEmpty = false ∧
      maxDateOf (clean_and_transform_data rawW c3e) = some 20001) ∧
    (clean_and_transform_data rawW c3e).rows.Nodup ∧
    (∃ rep, perform_data_quality_checks 20003 (clean_and_transform_data rawW c3e) = .ok rep ∧
      rep.lookup "duplicates" = some (QVal.str "None")) :=
  ⟨⟨by decide, by decide, by rw [wSel_rawW]; decide, by decide, by rw [joined_c3]; decide,
    by rw [clean_c3]; decide, by rw [clean_c3]; decide⟩,
    c3_dedup_before_report 20003 rawW c3e (by decide) (by decide)
      (by rw [wSel_rawW]; decide) (by decide) (by rw [joined_c3]; decide)
      (by rw [clean_c3]; decide) 20001 (by rw [clean_c3]; decide)⟩

/-- C3 counterexample: the join of `rawW` and `c3e` contains duplicate rows,
yet the quality report of the pipeline run records duplicates = "None" and the
audited table is already deduplicated — deduplication happened silently before
the duplicates were recorded, refuting the claim. -/
theorem c3_counterexample :
    ¬(joinedDF rawW c3e).rows.Nodup ∧
    (clean_and_transform_data rawW c3e).rows.Nodup ∧
    (perform_data_quality_checks 20003 (clean_and_transform_data rawW c3e)).map
      (fun rep => rep.lookup "duplicates") = .ok (some (QVal.str "None")) := by
  refine ⟨by rw [joined_c3]; decide, by rw [clean_c3]; decide, ?_⟩
  rw [clean_c3]
  rfl

/-! ## C8: per-city presence in the correlation result -/

lemma lookup_isSome_iff {α β : Type} [DecidableEq α] (l : List (α × β)) (k : α) :
    ((l.lookup k).isSome = true) ↔ ∃ p ∈ l, p.1 = k := by
  induction l with
  | nil =>
    constructor
    · intro h; cases h
    · rintro ⟨p, hp, _⟩; cases hp
  | cons pr t ih =>
    obtain ⟨a, b⟩ := pr
    by_cases hk : k = a
    · subst hk
      rw [lookup_cons_eq]
      exact ⟨fun _ => ⟨(k, b), List.mem_cons_self _ _, rfl⟩, fun _ => rfl⟩
    · rw [lookup_cons_ne hk, ih]
      constructor
      · rintro ⟨p, hp, hpk⟩
        exact ⟨p, List.mem_cons_of_mem _ hp, hpk⟩
      · rintro ⟨p, hp, hpk⟩
        rcases List.mem_cons.mp hp with h | h
        · rw [h] at hpk
          exact absurd hpk.symm hk
        · exact ⟨p, h, hpk⟩

lemma cellEqB_str_iff {x : Cell} {s : String} :
    cellEqB x (Cell.str s) = true ↔ x = Cell.str s := by
  cases x <;> simp [cellEqB]

lemma mem_dedupFirstAux_of_mem [DecidableEq α] {x : α} {l : List α} :
    ∀ {seen : List α}, x ∈ l → x ∉ seen → x ∈ dedupFirstAux seen l := by
  induction l with
  | nil => intro seen hx _; cases hx
  | cons y ys ih =>
    intro seen hx hs
    unfold dedupFirstAux
    by_cases hy : y ∈ seen
    · rw [if_pos hy]
      rcases List.mem_cons.mp hx with h | h
      · exact absurd (h ▸ hy) hs
      · exact ih h hs
    · rw [if_neg hy]
      by_cases hxy : x = y
      · exact hxy ▸ List.mem_cons_self _ _
      · rcases List.mem_cons.mp hx with h | h
        · exact absurd h hxy
        · refine List.mem_cons_of_mem _ (ih h ?_)
          intro hmem
          rcases List.mem_cons.mp hmem with h2 | h2
          · exact hxy h2
          · exact hs h2

lemma toNums_eq_some {cs : List Cell} (h : ∀ c ∈ cs, ∃ q, c = Cell.num q) :
    ∃ as, toNums cs = some as := by
  induction cs with
  | nil => exact ⟨[], rfl⟩
  | cons c t ih =>
    obtain ⟨q, hq⟩ := h c (List.mem_cons_self _ _)
    obtain ⟨as, has⟩ := ih (fun c2 hc2 => h c2 (List.mem_cons_of_mem _ hc2))
    subst hq
    refine ⟨q :: as, ?_⟩
    unfold toNums at has ⊢
    rw [List.mapM_cons, has]
    rfl

lemma pearsonCells_ok {xs ys : List Cell} (hlen : 2 ≤ xs.length)
    (hx : ∀ c ∈ xs, ∃ q, c = Cell.num q) (hy : ∀ c ∈ ys, ∃ q, c = Cell.num q) :
    ∃ c, pearsonCells xs ys = .ok c := by
  obtain ⟨as, has⟩ := toNums_eq_some hx
  obtain ⟨bs, hbs⟩ := toNums_eq_some hy
  unfold pearsonCells
  rw [if_neg (by omega), has, hbs]
  dsimp only
  by_cases hc : (constantList as || constantList bs) = true
  · rw [if_pos hc]
    exact ⟨_, rfl⟩
  · rw [if_neg hc]
    exact ⟨_, rfl⟩

lemma analyze_eq (df : DF) (h1 : "max_temp_F" ∈ df.cols)
    (h2 : "energy_consumption" ∈ df.cols) (hrows : df.rows.isEmpty = false)
    (hcl : ((dropnaTempEnergy df).rows.isEmpty) = false) :
    analyze_correlation df =
      (match pearsonCells ((dropnaTempEnergy df).rows.map (rowCell df.cols "max_temp_F"))
          ((dropnaTempEnergy df).rows.map (rowCell df.cols "energy_consumption")) with
       | .ok c => [(CKey.overall, c)]
       | .error _ => []) ++
      (uniqueCells ((dropnaTempEnergy df).rows.map (rowCell df.cols "city"))).flatMap
        (fun city =>
          if 1 < ((dropnaTempEnergy df).rows.filter
              (fun r => cellEqB (rowCell df.cols "city" r) city)).length then
            match pearsonCells (((dropnaTempEnergy df).rows.filter
                  (fun r => cellEqB (rowCell df.cols "city" r) city)).map
                  (rowCell df.cols "max_temp_F"))
                (((dropnaTempEnergy df).rows.filter
                  (fun r => cellEqB (rowCell df.cols "city" r) city)).map
                  (rowCell df.cols "energy_consumption")) with
            | .ok c => [(CKey.city city, c)]
            | .error _ => []
          else []) := by
  have hcolsne : df.cols.isEmpty = false := by
    cases hc : df.cols with
    | nil => rw [hc] at h1; cases h1
    | cons a t => rfl
  unfold analyze_correlation
  rw [if_neg (by simp [DF.isEmpty, hrows, hcolsne, h1, h2]), if_neg (by simp [hcl])]
  rfl

/-- C8: in the correlation result, a city appears as a key iff it has at
least 2 valid data points after rows with null max_temp_F or
energy_consumption are excluded; with fewer valid points it is absent. -/
theorem c8_city_scope_iff (df : DF) (hcity : "city" ∈ df.cols)
    (h1 : "max_temp_F" ∈ df.cols) (h2 : "energy_consumption" ∈ df.cols)
    (hnum : ∀ r ∈ df.rows, isNumOrNull (rowCell df.cols "max_temp_F" r) = true ∧
      isNumOrNull (rowCell df.cols "energy_consumption" r) = true) :
    ∀ name : String,
      (((analyze_correlation df).lookup (CKey.city (Cell.str name))).isSome = true ↔
        2 ≤ validCount df (Cell.str name)) := by
  intro name
  by_cases hrows : df.rows.isEmpty = true
  · have hz : validCount df (Cell.str name) = 0 := by
      unfold validCount dropnaTempEnergy
      rw [List.isEmpty_iff.mp hrows]
      rfl
    have ha : analyze_correlation df = [] := by
      unfold analyze_correlation
      rw [if_pos (by simp [DF.isEmpty, hrows])]
    rw [ha, hz]
    constructor
    · intro h; cases h
    · intro h; omega
  · by_cases hcl : (dropnaTempEnergy df).rows.isEmpty = true
    · have hz : validCount df (Cell.str name) = 0 := by
        unfold validCount
        rw [List.isEmpty_iff.mp hcl]
        rfl
      have ha : analyze_correlation df = [] := by
        have hcolsne : df.cols.isEmpty = false := by
          cases hc : df.cols with
          | nil => rw [hc] at h1; cases h1
          | cons a t => rfl
        unfold analyze_correlation
        rw [if_neg (by simp [DF.isEmpty, hrows, hcolsne, h1, h2]), if_pos (by simp [hcl])]
      rw [ha, hz]
      constructor
      · intro h; cases h
      · intro h; omega
    · rw [analyze_eq df h1 h2 (by simp at hrows ⊢; exact hrows)
        (by simp at hcl ⊢; exact hcl)]
      rw [lookup_isSome_iff]
      constructor
      · rintro ⟨p, hp, hpk⟩
        rcases List.mem_append.mp hp with h | h
        · exfalso
          split at h
          · rw [List.mem_singleton.mp h] at hpk
            cases hpk
          · cases h
        · obtain ⟨u, hu, hpu⟩ := List.mem_flatMap.mp h
          split at hpu
          next hlen =>
            split at hpu
            · rw [List.mem_singleton.mp hpu] at hpk
              have hun : u = Cell.str name := CKey.city.inj hpk
              rw [hun] at hlen
              unfold validCount
              omega
            · cases hpu
          next => cases hpu
      · intro hval
        have hlen2 : 2 ≤ ((dropnaTempEnergy df).rows.filter
            (fun r => cellEqB (rowCell df.cols "city" r) (Cell.str name))).length := hval
        have hne : ((dropnaTempEnergy df).rows.filter
            (fun r => cellEqB (rowCell df.cols "city" r) (Cell.str name))) ≠ [] := by
          intro hnil
          rw [hnil] at hlen2
          simp at hlen2
        obtain ⟨r, hr⟩ := List.exists_mem_of_ne_nil _ hne
        have hrf := List.mem_filter.mp hr
        have hcell : rowCell df.cols "city" r = Cell.str name := cellEqB_str_iff.mp hrf.2
        have hu : Cell.str name ∈ (dropnaTempEnergy df).rows.map (rowCell df.cols "city") :=
          List.mem_map.mpr ⟨r, hrf.1, hcell⟩
        have huniq : Cell.str name ∈
            uniqueCells ((dropnaTempEnergy df).rows.map (rowCell df.cols "city")) :=
          mem_dedupFirstAux_of_mem hu (by intro h; cases h)
        have hsubcell : ∀ r2 ∈ ((dropnaTempEnergy df).rows.filter
            (fun r => cellEqB (rowCell df.cols "city" r) (Cell.str name))),
            (∃ q, rowCell df.cols "max_temp_F" r2 = Cell.num q) ∧
            (∃ q, rowCell df.cols "energy_consumption" r2 = Cell.num q) := by
          intro r2 hr2
          have hr2f := List.mem_filter.mp hr2
          have hr2d := List.mem_filter.mp hr2f.1
          have hr2df : r2 ∈ df.rows := hr2d.1
          have hpred := hr2d.2
          simp only [decide_eq_true_eq] at hpred
          obtain ⟨hnn1, hnn2⟩ := hpred
          obtain ⟨ht1, ht2⟩ := hnum r2 hr2df
          constructor
          · rcases hx : rowCell df.cols "max_temp_F" r2 with s | q | d | b
            · rw [hx] at ht1; cases ht1
            · exact ⟨q, rfl⟩
            · rw [hx] at ht1; cases ht1
            · rw [hx] at ht1; cases ht1
            · exact absurd hx hnn1
          · rcases hx : rowCell df.cols "energy_consumption" r2 with s | q | d | b
            · rw [hx] at ht2; cases ht2
            · exact ⟨q, rfl⟩
            · rw [hx] at ht2; cases ht2
            · rw [hx] at ht2; cases ht2
            · exact absurd hx hnn2
        obtain ⟨c, hc⟩ := @pearsonCells_ok
          (((dropnaTempEnergy df).rows.filter
            (fun r => cellEqB (rowCell df.cols "city" r) (Cell.str name))).map
            (rowCell df.cols "max_temp_F"))
          (((dropnaTempEnergy df).rows.filter
            (fun r => cellEqB (rowCell df.cols "city" r) (Cell.str name))).map
            (rowCell df.cols "energy_consumption"))
          (by rw [List.length_map]; exact hlen2)
          (by
            intro c hcm
            obtain ⟨r2, hr2, hr2e⟩ := List.mem_map.mp hcm
            obtain ⟨⟨q, hq⟩, _⟩ := hsubcell r2 hr2
            exact ⟨q, by rw [← hr2e, hq]⟩)
          (by
            intro c hcm
            obtain ⟨r2, hr2, hr2e⟩ := List.mem_map.mp hcm
            obtain ⟨_, ⟨q, hq⟩⟩ := hsubcell r2 hr2
            exact ⟨q, by rw [← hr2e, hq]⟩)
        refine ⟨(CKey.city (Cell.str name), c), List.mem_append_right _ ?_, rfl⟩
        refine List.mem_flatMap.mpr ⟨Cell.str name, huniq, ?_⟩
        rw [if_pos (by omega), hc]
        exact List.mem_singleton.mpr rfl

theorem c8_city_scope_iff_witness :
    ("city" ∈ c8df.cols ∧ "max_temp_F" ∈ c8df.cols ∧
      "energy_consumption" ∈ c8df.cols ∧
      (∀ r ∈ c8df.rows, isNumOrNull (rowCell c8df.cols "max_temp_F" r) = true ∧
        isNumOrNull (rowCell c8df.cols "energy_consumption" r) = true) ∧
      validCount c8df (Cell.str "A") = 2 ∧ validCount c8df (Cell.str "B") = 0) ∧
    (((analyze_correlation c8df).lookup (CKey.city (Cell.str "A"))).isSome = true ↔
      2 ≤ validCount c8df (Cell.str "A")) ∧
    (((analyze_correlation c8df).lookup (CKey.city (Cell.str "B"))).isSome = true ↔
      2 ≤ validCount c8df (Cell.str "B")) :=
  ⟨by decide,
    c8_city_scope_iff c8df (by decide) (by decide) (by decide) (by decide) "A",
    c8_city_scope_iff c8df (by decide) (by decide) (by decide) (by decide) "B"⟩

/-! ## C9: stored correlation values -/

lemma cs_step (a b S X Y : ℚ) (hS : S ^ 2 ≤ X * Y) (hX : 0 ≤ X) (hY : 0 ≤ Y) :
    (a * b + S) ^ 2 ≤ (a ^ 2 + X) * (b ^ 2 + Y) := by
  rcases eq_or_lt_of_le hY with hY0 | hYpos
  · have hS0 : S = 0 := by nlinarith [sq_nonneg S]
    rw [← hY0, hS0]
    nlinarith [mul_nonneg hX (sq_nonneg b)]
  · nlinarith [sq_nonneg (a * Y - b * S), mul_nonneg (sub_nonneg.mpr hS) (sq_nonneg b),
      mul_nonneg (sub_nonneg.mpr hS) hY, hYpos]

lemma cs_list (l : List (ℚ × ℚ)) :
    ((l.map (fun p => p.1 * p.2)).sum) ^ 2 ≤
      (l.map (fun p => p.1 ^ 2)).sum * (l.map (fun p => p.2 ^ 2)).sum := by
  induction l with
  | nil => simp
  | cons x l ih =>
    obtain ⟨a, b⟩ := x
    simp only [List.map_cons, List.sum_cons]
    have hX : 0 ≤ (l.map (fun p => p.1 ^ 2)).sum :=
      List.sum_nonneg (by
        intro q hq
        obtain ⟨p2, _, hp2⟩ := List.mem_map.mp hq
        rw [← hp2]
        exact sq_nonneg _)
    have hY : 0 ≤ (l.map (fun p => p.2 ^ 2)).sum :=
      List.sum_nonneg (by
        intro q hq
        obtain ⟨p2, _, hp2⟩ := List.mem_map.mp hq
        rw [← hp2]
        exact sq_nonneg _)
    exact cs_step a b _ _ _ ih hX hY

lemma pearson_val_inUnit (l : List (ℚ × ℚ)) (xbar ybar : ℚ) :
    ((l.map (fun p => (p.1 - xbar) * (p.2 - ybar))).sum) ^ 2 ≤
      ((l.map (fun p => (p.1 - xbar) ^ 2)).sum) *
      ((l.map (fun p => (p.2 - ybar) ^ 2)).sum) := by
  have hcs := cs_list (l.map (fun p => (p.1 - xbar, p.2 - ybar)))
  simp only [List.map_map, Function.comp] at hcs
  exact hcs

lemma pearsonCells_ok_inUnit {xs ys : List Cell} {c : Corr}
    (h : pearsonCells xs ys = .ok c) : c = Corr.nan ∨ inUnitInterval c := by
  unfold pearsonCells at h
  split at h
  · cases h
  · split at h
    · split at h
      · left
        exact (Except.ok.inj h).symm
      · right
        rw [← Except.ok.inj h]
        simp only [inUnitInterval]
        exact pearson_val_inUnit _ _ _
    · cases h

lemma mem_analyze_pearson {df : DF} {p : CKey × Corr}
    (hp : p ∈ analyze_correlation df) : ∃ xs ys, pearsonCells xs ys = .ok p.2 := by
  unfold analyze_correlation at hp
  split at hp
  · cases hp
  · dsimp only at hp
    split at hp
    · cases hp
    · rcases List.mem_append.mp hp with h | h
      · split at h
        next c hc =>
          rw [List.mem_singleton.mp h]
          exact ⟨_, _, hc⟩
        next => cases h
      · obtain ⟨u, hu, hpu⟩ := List.mem_flatMap.mp h
        split at hpu
        · split at hpu
          next c hc =>
            rw [List.mem_singleton.mp hpu]
            exact ⟨_, _, hc⟩
          next => cases hpu
        · cases hpu

/-- C9 (corrected): every value stored in the correlation result is either
NaN (what `pearsonr` returns for a zero-variance scope — not a number in
[-1, 1]) or a Pearson coefficient lying in the closed interval [-1, 1]
(`inUnitInterval`: the represented value `cov / sqrt(vx * vy)` satisfies
`cov² ≤ vx·vy`). -/
theorem c9_values_nan_or_unit (df : DF) :
    ∀ p ∈ analyze_correlation df, p.2 = Corr.nan ∨ inUnitInterval p.2 := by
  intro p hp
  obtain ⟨xs, ys, h⟩ := mem_analyze_pearson hp
  exact pearsonCells_ok_inUnit h

theorem c9_values_nan_or_unit_witness :
    ((CKey.overall, Corr.nan) ∈ analyze_correlation c8df) ∧
    ((CKey.overall, Corr.nan).2 = Corr.nan ∨ inUnitInterval (CKey.overall, Corr.nan).2) :=
  ⟨by decide, c9_values_nan_or_unit c8df (CKey.overall, Corr.nan) (by decide)⟩

/-- C9 counterexample: on a table whose city A has two valid but constant
observations, the analyzer stores NaN for that city (and for the overall
scope), and NaN is not a Pearson coefficient in [-1, 1] — refuting "every
value … is a Pearson correlation coefficient lying in [-1, 1]". -/
theorem c9_counterexample :
    (analyze_correlation c8df).lookup (CKey.city (Cell.str "A")) = some Corr.nan ∧
    ¬inUnitInterval Corr.nan :=
  ⟨by decide, fun h => h⟩


/-! ## C1: fetch failure behaviour of the pipeline run -/

lemma fetchWeatherAux_retry (oracle : City → FetchOutcome) :
    ∀ (pre : List City) (c : City) (post : List City) (acc : List DF) (log : List String),
      (∀ x ∈ pre, (∃ d, oracle x = .success d) ∨ oracle x = .noResults) →
      oracle c = .retryError →
      (fetchWeatherAux oracle (pre ++ c :: post) acc log).1 = none ∧
      retryFailMsg c.name ∈ (fetchWeatherAux oracle (pre ++ c :: post) acc log).2 := by
  intro pre
  induction pre with
  | nil =>
    intro c post acc log _ hc
    simp only [List.nil_append]
    unfold fetchWeatherAux
    rw [hc]
    exact ⟨rfl, List.mem_append_right _ (List.mem_singleton.mpr rfl)⟩
  | cons x xs ih =>
    intro c post acc log hpre hc
    have hx := hpre x (List.mem_cons_self _ _)
    have hxs : ∀ y ∈ xs, (∃ d, oracle y = .success d) ∨ oracle y = .noResults :=
      fun y hy => hpre y (List.mem_cons_of_mem _ hy)
    rw [List.cons_append]
    unfold fetchWeatherAux
    rcases hx with ⟨d, hd⟩ | hn
    · rw [hd]
      exact ih c post _ _ hxs hc
    · rw [hn]
      exact ih c post _ _ hxs hc

/-- C1 (corrected): when the weather fetch exhausts all retries for a city
(the first city with a transport failure), the failure is logged with the
city identifier and the weather raw artifact is not written — but the run
does NOT abort there: the energy fetch still runs and its raw artifact is
still written when it succeeds. -/
theorem c1_fetch_failure_logged_but_run_continues
    (cfg : Config) (woracle eoracle : City → FetchOutcome) (fs0 : FS) (today : Int)
    (pre : List City) (c : City) (post : List City)
    (hcities : cfg.cities = pre ++ c :: post) (hkey : cfg.noaaKeyOk = true)
    (hpre : ∀ x ∈ pre, (∃ d, woracle x = .success d) ∨ woracle x = .noResults)
    (hc : woracle c = .retryError) :
    retryFailMsg c.name ∈ (run_pipeline cfg woracle eoracle fs0 today).log ∧
    (run_pipeline cfg woracle eoracle fs0 today).fs.weatherRaw = fs0.weatherRaw ∧
    ((fetch_energy_data cfg eoracle).1 = none →
      (run_pipeline cfg woracle eoracle fs0 today).fs.energyRaw = fs0.energyRaw) ∧
    (∀ edf, (fetch_energy_data cfg eoracle).1 = some edf →
      (run_pipeline cfg woracle eoracle fs0 today).fs.energyRaw = some edf) := by
  have hw := fetchWeatherAux_retry woracle pre c post [] [] hpre hc
  have hwfd1 : (fetch_weather_data cfg woracle).1 = none := by
    unfold fetch_weather_data
    rw [hkey]
    simp only [Bool.not_true, Bool.false_eq_true, if_false, hcities]
    exact hw.1
  have hwfd2 : retryFailMsg c.name ∈ (fetch_weather_data cfg woracle).2 := by
    unfold fetch_weather_data
    rw [hkey]
    simp only [Bool.not_true, Bool.false_eq_true, if_false, hcities]
    exact hw.2
  rcases hwp : fetch_weather_data cfg woracle with ⟨w1, w2⟩
  rw [hwp] at hwfd1 hwfd2
  simp only at hwfd1 hwfd2
  subst hwfd1
  rcases hep : fetch_energy_data cfg eoracle with ⟨e1, e2⟩
  unfold run_pipeline
  rw [hwp, hep]
  cases e1 with
  | none =>
    dsimp only
    split
    · refine ⟨List.mem_append_left _ (List.mem_append_left _ (List.mem_append_left _ hwfd2)),
        rfl, fun _ => rfl, fun edf hedf => ?_⟩
      cases hedf
    · refine ⟨List.mem_append_left _ (List.mem_append_left _ (List.mem_append_left _ hwfd2)),
        ?_, fun _ => ?_, fun edf hedf => ?_⟩
      · split <;> rfl
      · split <;> rfl
      · cases hedf
  | some edf0 =>
    dsimp only
    split
    · refine ⟨List.mem_append_left _ (List.mem_append_left _ (List.mem_append_left _ hwfd2)),
        rfl, fun hedf => ?_, fun edf hedf => ?_⟩
      · cases hedf
      · exact hedf
    · refine ⟨List.mem_append_left _ (List.mem_append_left _ (List.mem_append_left _ hwfd2)),
        ?_, fun hedf => ?_, fun edf hedf => ?_⟩
      · split <;> rfl
      · cases hedf
      · split <;> exact hedf

theorem c1_fetch_failure_logged_but_run_continues_witness :
    (c1cfg.cities = [] ++ c1city :: [] ∧ c1cfg.noaaKeyOk = true ∧
      (∀ x ∈ ([] : List City), (∃ d, c1wor x = .success d) ∨ c1wor x = .noResults) ∧
      c1wor c1city = .retryError) ∧
    (retryFailMsg c1city.name ∈ (run_pipeline c1cfg c1wor c1eor c1fs 20003).log ∧
    (run_pipeline c1cfg c1wor c1eor c1fs 20003).fs.weatherRaw = c1fs.weatherRaw ∧
    ((fetch_energy_data c1cfg c1eor).1 = none →
      (run_pipeline c1cfg c1wor c1eor c1fs 20003).fs.energyRaw = c1fs.energyRaw) ∧
    (∀ edf, (fetch_energy_data c1cfg c1eor).1 = some edf →
      (run_pipeline c1cfg c1wor c1eor c1fs 20003).fs.energyRaw = some edf)) :=
  ⟨⟨rfl, rfl, fun x hx => absurd hx (List.not_mem_nil x), rfl⟩,
    c1_fetch_failure_logged_but_run_continues c1cfg c1wor c1eor c1fs 20003
      [] c1city [] rfl rfl (fun x hx => absurd hx (List.not_mem_nil x)) rfl⟩

/-- C1 counterexample: in a run where the weather fetch exhausts its retries
for the only configured city, the failure is logged with the city identifier
— but the run does not abort cleanly with no artifacts: the energy raw
artifact IS written, after which the run crashes in the quality check
(`KeyError`) on the energy-only table, leaving no processed artifact. This
refutes "no raw or processed artifact files are written for that run". -/
theorem c1_counterexample :
    (run_pipeline c1cfg c1wor c1eor c1fs 20003).fs.energyRaw =
      some { cols := ["period", "value", "region"],
             rows := [[Cell.dt 20000, Cell.num 10, Cell.str "Boston"]] } ∧
    retryFailMsg "Boston" ∈ (run_pipeline c1cfg c1wor c1eor c1fs 20003).log ∧
    (run_pipeline c1cfg c1wor c1eor c1fs 20003).fs.weatherRaw = none ∧
    (run_pipeline c1cfg c1wor c1eor c1fs 20003).fs.processed = none ∧
    (run_pipeline c1cfg c1wor c1eor c1fs 20003).crashed =
      some "KeyError: max_temp_F" := by
  refine ⟨by rfl, by decide, by rfl, by rfl, by rfl⟩


/-! ## C5: order and structure lemmas for the transformed table -/

lemma cellLe_total (a b : Cell) : cellLe a b = true ∨ cellLe b a = true := by
  cases a <;> cases b <;> simp [cellLe] <;> exact le_total _ _

lemma cellLe_trans {a b c : Cell} (h1 : cellLe a b = true) (h2 : cellLe b c = true) :
    cellLe a c = true := by
  cases a <;> cases b <;> cases c <;> simp_all [cellLe] <;> exact le_trans h1 h2

lemma cellLe_antisymm {a b : Cell} (h1 : cellLe a b = true) (h2 : cellLe b a = true) :
    a = b := by
  cases a <;> cases b <;> simp_all [cellLe] <;>
    first
    | exact le_antisymm h1 h2
    | exact String.ext (le_antisymm h1 h2)

instance : IsTotal (Cell × Cell) keyLeR := by
  constructor
  intro a b
  unfold keyLeR keyLe
  by_cases h : a.1 = b.1
  · rw [if_pos h, if_pos h.symm]
    exact cellLe_total _ _
  · rw [if_neg h, if_neg (fun h2 => h h2.symm)]
    exact cellLe_total _ _

instance : IsTrans (Cell × Cell) keyLeR := by
  constructor
  intro a b c h1 h2
  unfold keyLeR keyLe at h1 h2 ⊢
  by_cases hab : a.1 = b.1 <;> by_cases hbc : b.1 = c.1
  · rw [if_pos hab] at h1
    rw [if_pos hbc] at h2
    rw [if_pos (hab.trans hbc)]
    exact cellLe_trans h1 h2
  · rw [if_pos hab] at h1
    rw [if_neg hbc] at h2
    rw [if_neg (fun h => hbc (hab ▸ h)), hab]
    exact h2
  · rw [if_neg hab] at h1
    rw [if_pos hbc] at h2
    rw [if_neg (fun h => hab (h.trans hbc.symm)), ← hbc]
    exact h1
  · rw [if_neg hab] at h1
    rw [if_neg hbc] at h2
    by_cases hac : a.1 = c.1
    · exfalso
      exact hab (cellLe_antisymm h1 (hac ▸ h2))
    · rw [if_neg hac]
      exact cellLe_trans h1 h2

lemma dedupFirstAux_sublist [DecidableEq α] (seen : List α) (l : List α) :
    List.Sublist (dedupFirstAux seen l) l := by
  induction l generalizing seen with
  | nil => exact List.Sublist.refl _
  | cons x xs ih =>
    unfold dedupFirstAux
    split
    · exact (ih seen).trans (List.sublist_cons_self _ _)
    · exact List.Sublist.cons₂ x (ih (x :: seen))

lemma dedupFirst_sublist [DecidableEq α] (l : List α) :
    List.Sublist (dedupFirst l) l :=
  dedupFirstAux_sublist [] l

lemma filterMap_ite_none {α : Type} (l : List α) (C : α → Prop) [DecidablePred C] :
    l.filterMap (fun k => if C k then none else some k) =
      l.filter (fun k => decide (¬C k)) := by
  induction l with
  | nil => rfl
  | cons x xs ih =>
    by_cases hx : C x
    · simp only [List.filterMap_cons, List.filter_cons, hx, if_pos, decide_not,
        decide_eq_true_eq]
      simp [hx, ih]
    · simp only [List.filterMap_cons, List.filter_cons, if_neg hx]
      simp [hx, ih]


lemma cellAt_append_lt {r l : List Cell} {i : Nat} (h : i < r.length) :
    cellAt (r ++ l) i = cellAt r i :=
  List.getD_append _ _ _ _ h

lemma keyProj_append {r l : List Cell} (h : 2 ≤ r.length) :
    keyProj (r ++ l) = keyProj r := by
  unfold keyProj
  rw [cellAt_append_lt (by omega), cellAt_append_lt (by omega)]

lemma map_keyProj_filterMap_sublist (l : List (Cell × Cell))
    (f : (Cell × Cell) → Option (List Cell))
    (hf : ∀ k r, f k = some r → keyProj r = k) :
    List.Sublist ((l.filterMap f).map keyProj) l := by
  induction l with
  | nil => exact List.Sublist.refl _
  | cons k ks ih =>
    rw [List.filterMap_cons]
    cases hfk : f k with
    | none => exact ih.trans (List.sublist_cons_self _ _)
    | some r =>
      rw [List.map_cons, hf k r hfk]
      exact List.Sublist.cons₂ k ih

lemma pivot_keys_sublist (w : DF) :
    List.Sublist ((pivotWeather w).rows.map keyProj)
      (List.insertionSort keyLeR (dedupFirst (w.rows.map (fun r =>
        (rowCell w.cols "date" r, rowCell w.cols "city" r))))) := by
  unfold pivotWeather
  refine map_keyProj_filterMap_sublist _ _ ?_
  intro k r h
  dsimp only at h
  split at h
  · cases h
  · rw [← Option.some.inj h]
    rfl

lemma sortedKeys_pairwise (w : DF) :
    List.Pairwise keyLeR (List.insertionSort keyLeR (dedupFirst (w.rows.map (fun r =>
      (rowCell w.cols "date" r, rowCell w.cols "city" r))))) :=
  List.sorted_insertionSort keyLeR _

lemma sortedKeys_nodup (w : DF) :
    (List.insertionSort keyLeR (dedupFirst (w.rows.map (fun r =>
      (rowCell w.cols "date" r, rowCell w.cols "city" r))))).Nodup :=
  ((List.perm_insertionSort keyLeR _).symm).nodup (nodup_dedupFirst _)

lemma sortedKeys_typed (w : DF)
    (hwdt : ∀ r ∈ w.rows, isDtCell (rowCell w.cols "date" r) = true ∧
      isStrCell (rowCell w.cols "city" r) = true) :
    ∀ k ∈ List.insertionSort keyLeR (dedupFirst (w.rows.map (fun r =>
      (rowCell w.cols "date" r, rowCell w.cols "city" r)))),
      isDtCell k.1 = true ∧ isStrCell k.2 = true := by
  intro k hk
  have hk2 : k ∈ dedupFirst (w.rows.map (fun r =>
      (rowCell w.cols "date" r, rowCell w.cols "city" r))) :=
    (List.perm_insertionSort keyLeR _).mem_iff.mp hk
  have hk3 := mem_of_mem_dedupFirst hk2
  obtain ⟨r, hr, hkr⟩ := List.mem_map.mp hk3
  obtain ⟨h1, h2⟩ := hwdt r hr
  rw [← hkr]
  exact ⟨h1, h2⟩

lemma pairwise_city_dates {keys : List (Cell × Cell)}
    (hsort : List.Pairwise keyLeR keys) (hnd : keys.Nodup)
    (hty : ∀ k ∈ keys, isDtCell k.1 = true ∧ isStrCell k.2 = true) (s : String) :
    List.Pairwise dtPairLt (keys.filter (fun k => decide (k.2 = Cell.str s))) := by
  have hcomb : List.Pairwise (fun k1 k2 => keyLeR k1 k2 ∧ k1 ≠ k2) keys :=
    hsort.and hnd
  have hfil : List.Pairwise (fun k1 k2 => keyLeR k1 k2 ∧ k1 ≠ k2)
      (keys.filter (fun k => decide (k.2 = Cell.str s))) :=
    hcomb.sublist (List.filter_sublist _)
  refine List.Pairwise.imp_of_mem ?_ hfil
  intro k1 k2 h1 h2 hrel
  have hm1 := List.mem_filter.mp h1
  have hm2 := List.mem_filter.mp h2
  have hs1 : k1.2 = Cell.str s := by simpa using hm1.2
  have hs2 : k2.2 = Cell.str s := by simpa using hm2.2
  have hty1 := (hty k1 (List.mem_of_mem_filter h1)).1
  have hty2 := (hty k2 (List.mem_of_mem_filter h2)).1
  obtain ⟨hle, hne⟩ := hrel
  unfold keyLeR keyLe at hle
  by_cases hfst : k1.1 = k2.1
  · exfalso
    exact hne (Prod.ext hfst (hs1.trans hs2.symm))
  · rw [if_neg hfst] at hle
    rcases hd1 : k1.1 with s1 | q1 | d1 | b1
    · rw [hd1] at hty1
      exact Bool.noConfusion hty1
    · rw [hd1] at hty1
      exact Bool.noConfusion hty1
    · rcases hd2 : k2.1 with s2 | q2 | d2 | b2
      · rw [hd2] at hty2
        exact Bool.noConfusion hty2
      · rw [hd2] at hty2
        exact Bool.noConfusion hty2
      · refine ⟨d1, d2, hd1, hd2, ?_⟩
        rw [hd1, hd2] at hle hfst
        simp only [cellLe, decide_eq_true_eq] at hle
        rcases lt_or_eq_of_le hle with h | h
        · exact h
        · exact absurd (h ▸ rfl) hfst
      · rw [hd2] at hty2
        exact Bool.noConfusion hty2
      · rw [hd2] at hty2
        exact Bool.noConfusion hty2
    · rw [hd1] at hty1
      exact Bool.noConfusion hty1
    · rw [hd1] at hty1
      exact Bool.noConfusion hty1


lemma filterMap_ifBool {α β : Type} (l : List α) (c : α → Bool) (g : α → β) :
    (l.filterMap (fun x => if c x then some (g x) else none)) = (l.filter c).map g := by
  induction l with
  | nil => rfl
  | cons x xs ih =>
    rw [List.filterMap_cons, List.filter_cons]
    by_cases hx : c x = true
    · rw [if_pos hx, if_pos hx, List.map_cons, ih]
    · rw [if_neg hx, if_neg hx, ih]

lemma filter_key_len_le_one {rows : List (List Cell)}
    (hnd : (rows.map keyProj).Nodup) (k : Cell × Cell) :
    (rows.filter (fun rb => decide (keyProj rb = k))).length ≤ 1 := by
  induction rows with
  | nil => exact Nat.zero_le 1
  | cons rb rs ih =>
    rw [List.map_cons, List.nodup_cons] at hnd
    rw [List.filter_cons]
    by_cases hk : keyProj rb = k
    · rw [if_pos (by simpa using hk)]
      have hnil : rs.filter (fun rb2 => decide (keyProj rb2 = k)) = [] := by
        rw [List.filter_eq_nil_iff]
        intro rb2 hrb2
        simp only [decide_eq_true_eq]
        intro hk2
        exact hnd.1 (List.mem_map.mpr ⟨rb2, hrb2, hk2.trans hk.symm⟩)
      rw [hnil]
      exact Nat.le_refl 1
    · rw [if_neg (by simpa using hk)]
      exact ih hnd.2

lemma map_const_sublist_single {α β : Type} {l : List α} {b : β} (hlen : l.length ≤ 1) :
    List.Sublist (l.map (fun _ => b)) [b] := by
  cases l with
  | nil => exact List.nil_sublist _
  | cons x xs =>
    cases xs with
    | nil => exact List.Sublist.refl _
    | cons y ys => simp at hlen

lemma flatMap_sublist_map {α β : Type} (l : List α) (f : α → List β) (g : α → β)
    (h : ∀ a ∈ l, List.Sublist (f a) [g a]) :
    List.Sublist (l.flatMap f) (l.map g) := by
  induction l with
  | nil => exact List.nil_sublist _
  | cons x xs ih =>
    rw [List.flatMap_cons, List.map_cons]
    have : g x :: xs.map g = [g x] ++ xs.map g := rfl
    rw [this]
    exact List.Sublist.append (h x (List.mem_cons_self _ _))
      (ih (fun a ha => h a (List.mem_cons_of_mem _ ha)))

lemma joined_keys_sublist (w e : DF)
    (hekeys : ((eSel e).rows.map keyProj).Nodup) :
    List.Sublist ((joinedDF w e).rows.map keyProj) ((wSel w).rows.map keyProj) := by
  unfold joinedDF mergeInner
  dsimp only
  rw [List.map_flatMap]
  refine flatMap_sublist_map _ _ _ ?_
  intro ra hra
  have hralen : ra.length = 4 := mem_selectCols_length hra
  rw [filterMap_ifBool, List.map_map]
  have hcong : ∀ rb ∈ (eSel e).rows.filter (fun rb =>
      ["date", "city"].all (fun k =>
        decide (rowCell (wSel w).cols k ra = rowCell (eSel e).cols k rb))),
      (keyProj ∘ fun rb => ra ++ ((eSel e).cols.filter
        (fun c => decide (c ∉ ["date", "city"]))).map
        (fun c => rowCell (eSel e).cols c rb)) rb = keyProj ra := by
    intro rb _
    exact keyProj_append (by omega)
  rw [List.map_congr_left hcong]
  have hcond : ∀ rb, (["date", "city"].all (fun k =>
      decide (rowCell (wSel w).cols k ra = rowCell (eSel e).cols k rb))) =
      decide (keyProj rb = keyProj ra) := by
    intro rb
    show (decide (cellAt ra 0 = cellAt rb 0) &&
      (decide (cellAt ra 1 = cellAt rb 1) && true)) = decide (keyProj rb = keyProj ra)
    rw [Bool.and_true]
    unfold keyProj
    by_cases h0 : cellAt ra 0 = cellAt rb 0 <;>
      by_cases h1 : cellAt ra 1 = cellAt rb 1 <;>
      simp [h0, h1, Prod.ext_iff, eq_comm]
  rw [List.filter_congr (fun rb _ => hcond rb)]
  exact map_const_sublist_single (filter_key_len_le_one hekeys (keyProj ra))

lemma wSel_keys_eq (w : DF) :
    (wSel w).rows.map keyProj = (pivotWeather w).rows.map keyProj := by
  show ((pivotWeather w).rows.map (fun pr =>
    ["date", "city", "max_temp_F", "min_temp_F"].map (fun c =>
      rowCell ((pivotWeather w).cols.map (fun c2 =>
        (([("TMAX", "max_temp_F"), ("TMIN", "min_temp_F")].lookup c2).getD c2))) c pr))).map
      keyProj = (pivotWeather w).rows.map keyProj
  rw [List.map_map]
  refine List.map_congr_left ?_
  intro pr _
  rfl


lemma assocSet_lookup_same (st : List (Cell × Cell)) (k v : Cell) :
    (assocSet st k v).lookup k = some v := by
  induction st with
  | nil => exact lookup_cons_eq _ _ _
  | cons p rest ih =>
    obtain ⟨k2, v2⟩ := p
    unfold assocSet
    by_cases hk : k2 = k
    · rw [if_pos hk]
      exact lookup_cons_eq _ _ _
    · rw [if_neg hk]
      rw [lookup_cons_ne (fun h => hk h.symm)]
      exact ih

lemma assocSet_lookup_ne (st : List (Cell × Cell)) (k v k2 : Cell) (h : k2 ≠ k) :
    (assocSet st k v).lookup k2 = st.lookup k2 := by
  induction st with
  | nil =>
    show List.lookup k2 [(k, v)] = List.lookup k2 []
    rw [lookup_cons_ne h]
  | cons p rest ih =>
    obtain ⟨k3, v3⟩ := p
    unfold assocSet
    by_cases hk : k3 = k
    · rw [if_pos hk]
      subst hk
      rw [lookup_cons_ne h, lookup_cons_ne h]
    · rw [if_neg hk]
      by_cases h23 : k2 = k3
      · subst h23
        rw [lookup_cons_eq, lookup_cons_eq]
      · rw [lookup_cons_ne h23, lookup_cons_ne h23, ih]

lemma annotate_get_shape :
    ∀ (l : List (List Cell)) (prev : Option Cell) (i : Nat) (r : List Cell),
      (annotate prev l)[i]? = some r → ∃ r0, l[i]? = some r0 ∧ ∃ c, r = r0 ++ [c] := by
  intro l
  induction l with
  | nil =>
    intro prev i r h
    simp [annotate] at h
  | cons hd tl ih =>
    intro prev i r h
    unfold annotate at h
    cases i with
    | zero =>
      rw [List.getElem?_cons_zero] at h
      exact ⟨hd, by simp, _, (Option.some.inj h).symm⟩
    | succ j =>
      rw [List.getElem?_cons_succ] at h
      obtain ⟨r0, hr0, c, hc⟩ := ih _ j r h
      exact ⟨r0, by rw [List.getElem?_cons_succ]; exact hr0, c, hc⟩

lemma annotate_zero (prev : Option Cell) (l : List (List Cell)) (r : List Cell)
    (h : (annotate prev l)[0]? = some r) :
    ∃ r0, l[0]? = some r0 ∧
      r = r0 ++ [match prev with
                 | some p => subCell (cellAt r0 4) p
                 | none => Cell.null] := by
  cases l with
  | nil => simp [annotate] at h
  | cons hd tl =>
    unfold annotate at h
    rw [List.getElem?_cons_zero] at h
    exact ⟨hd, by simp, (Option.some.inj h).symm⟩

lemma annotate_chain :
    ∀ (l : List (List Cell)),
      (∀ r ∈ l, ∃ q, cellAt r 4 = Cell.num q) → (∀ r ∈ l, r.length = 5) →
      ∀ (prev : Option Cell) (i : Nat) (r1 r2 : List Cell),
        (annotate prev l)[i]? = some r1 → (annotate prev l)[i + 1]? = some r2 →
        ∃ a b : ℚ, cellAt r1 4 = Cell.num a ∧ cellAt r2 4 = Cell.num b ∧
          cellAt r2 5 = Cell.num (b - a) := by
  intro l
  induction l with
  | nil =>
    intro _ _ prev i r1 r2 h1 _
    simp [annotate] at h1
  | cons hd tl ih =>
    intro hnum hlen prev i r1 r2 h1 h2
    have hdn := hnum hd (List.mem_cons_self _ _)
    have hdl := hlen hd (List.mem_cons_self _ _)
    have hnum2 : ∀ r ∈ tl, ∃ q, cellAt r 4 = Cell.num q :=
      fun r h => hnum r (List.mem_cons_of_mem _ h)
    have hlen2 : ∀ r ∈ tl, r.length = 5 :=
      fun r h => hlen r (List.mem_cons_of_mem _ h)
    cases i with
    | zero =>
      unfold annotate at h1 h2
      rw [List.getElem?_cons_zero] at h1
      rw [List.getElem?_cons_succ] at h2
      obtain ⟨a, ha⟩ := hdn
      obtain ⟨r0, hr0, hr2⟩ := annotate_zero _ _ _ h2
      have hr0m : r0 ∈ tl := List.getElem?_mem hr0
      obtain ⟨b, hb⟩ := hnum2 r0 hr0m
      have hr0l : r0.length = 5 := hlen2 r0 hr0m
      refine ⟨a, b, ?_, ?_, ?_⟩
      · rw [← Option.some.inj h1, cellAt_append_lt (by omega)]
        exact ha
      · rw [hr2, cellAt_append_lt (by omega)]
        exact hb
      · rw [hr2]
        show cellAt (r0 ++ [subCell (cellAt r0 4) (cellAt hd 4)]) 5 = Cell.num (b - a)
        unfold cellAt
        rw [List.getD_append_right r0 _ _ 5 (by omega), hr0l]
        show subCell (cellAt r0 4) (cellAt hd 4) = Cell.num (b - a)
        rw [hb, ha]
        rfl
    | succ j =>
      unfold annotate at h1 h2
      rw [List.getElem?_cons_succ] at h1 h2
      exact ih hnum2 hlen2 _ j r1 r2 h1 h2

lemma addChangeAux_proj (s : String) :
    ∀ (rows : List (List Cell)) (st : List (Cell × Cell)),
      (∀ r ∈ rows, 2 ≤ r.length) →
      (addChangeAux ["date", "city", "max_temp_F", "min_temp_F", "energy_consumption"]
          st rows).filter (fun r => decide (cellAt r 1 = Cell.str s)) =
        annotate (st.lookup (Cell.str s))
          (rows.filter (fun r => decide (cellAt r 1 = Cell.str s))) := by
  intro rows
  induction rows with
  | nil => intro st _; rfl
  | cons r rs ih =>
    intro st hlen
    have hr2 : 2 ≤ r.length := hlen r (List.mem_cons_self _ _)
    have hlen2 : ∀ r2 ∈ rs, 2 ≤ r2.length :=
      fun r2 h => hlen r2 (List.mem_cons_of_mem _ h)
    rcases hcity : rowCell
        ["date", "city", "max_temp_F", "min_temp_F", "energy_consumption"] "city" r
      with s2 | q | d | b
    · -- city cell is a string
      rw [addChangeAux, hcity]
      dsimp only
      rw [List.filter_cons, List.filter_cons]
      have hcell : cellAt r 1 = Cell.str s2 := hcity
      by_cases hss : s2 = s
      · subst hss
        rw [if_pos (by rw [cellAt_append_lt (by omega), hcell]; simp),
          if_pos (by rw [hcell]; simp)]
        unfold annotate
        rw [ih (assocSet st (Cell.str s2)
          (rowCell ["date", "city", "max_temp_F", "min_temp_F", "energy_consumption"]
            "energy_consumption" r)) hlen2]
        rw [assocSet_lookup_same]
        rfl
      · rw [if_neg (by
            rw [cellAt_append_lt (by omega), hcell]
            simp [hss]),
          if_neg (by
            rw [hcell]
            simp [hss])]
        rw [ih (assocSet st (Cell.str s2)
          (rowCell ["date", "city", "max_temp_F", "min_temp_F", "energy_consumption"]
            "energy_consumption" r)) hlen2]
        rw [assocSet_lookup_ne _ _ _ _ (fun h => hss (Cell.str.inj h).symm)]
    · rw [addChangeAux, hcity]
      dsimp only
      rw [List.filter_cons, List.filter_cons]
      have hcell : cellAt r 1 = Cell.num q := hcity
      rw [if_neg (by rw [cellAt_append_lt (by omega), hcell]; simp),
        if_neg (by rw [hcell]; simp)]
      rw [ih _ hlen2, assocSet_lookup_ne _ _ _ _ (fun h => Cell.noConfusion h)]
    · rw [addChangeAux, hcity]
      dsimp only
      rw [List.filter_cons, List.filter_cons]
      have hcell : cellAt r 1 = Cell.dt d := hcity
      rw [if_neg (by rw [cellAt_append_lt (by omega), hcell]; simp),
        if_neg (by rw [hcell]; simp)]
      rw [ih _ hlen2, assocSet_lookup_ne _ _ _ _ (fun h => Cell.noConfusion h)]
    · rw [addChangeAux, hcity]
      dsimp only
      rw [List.filter_cons, List.filter_cons]
      have hcell : cellAt r 1 = Cell.bool b := hcity
      rw [if_neg (by rw [cellAt_append_lt (by omega), hcell]; simp),
        if_neg (by rw [hcell]; simp)]
      rw [ih _ hlen2, assocSet_lookup_ne _ _ _ _ (fun h => Cell.noConfusion h)]
    · rw [addChangeAux, hcity]
      dsimp only
      rw [List.filter_cons, List.filter_cons]
      have hcell : cellAt r 1 = Cell.null := hcity
      rw [if_neg (by rw [cellAt_append_lt (by omega), hcell]; simp),
        if_neg (by rw [hcell]; simp)]
      exact ih st hlen2


lemma annotate_mem_shape :
    ∀ (l : List (List Cell)) (prev : Option Cell) (r : List Cell),
      r ∈ annotate prev l → ∃ r0 ∈ l, ∃ c, r = r0 ++ [c] := by
  intro l
  induction l with
  | nil =>
    intro prev r h
    cases h
  | cons hd tl ih =>
    intro prev r h
    unfold annotate at h
    rcases List.mem_cons.mp h with h | h
    · exact ⟨hd, List.mem_cons_self _ _, _, h⟩
    · obtain ⟨r0, hr0, c, hc⟩ := ih _ r h
      exact ⟨r0, List.mem_cons_of_mem _ hr0, c, hc⟩

lemma annotate_pairwise_dates {l : List (List Cell)}
    (h : List.Pairwise (fun r1 r2 => ∃ d1 d2 : Int, cellAt r1 0 = Cell.dt d1 ∧
      cellAt r2 0 = Cell.dt d2 ∧ d1 < d2) l) :
    ∀ prev, List.Pairwise (fun r1 r2 => ∃ d1 d2 : Int, cellAt r1 0 = Cell.dt d1 ∧
      cellAt r2 0 = Cell.dt d2 ∧ d1 < d2) (annotate prev l) := by
  induction l with
  | nil => intro prev; exact List.Pairwise.nil
  | cons hd tl ih =>
    intro prev
    obtain ⟨hhd, htl⟩ := List.pairwise_cons.mp h
    unfold annotate
    refine List.pairwise_cons.mpr ⟨?_, ih htl _⟩
    intro r2 hr2
    obtain ⟨r0, hr0, c, hc⟩ := annotate_mem_shape tl _ r2 hr2
    obtain ⟨d1, d2, hd1, hd2, hdlt⟩ := hhd r0 hr0
    refine ⟨d1, d2, ?_, ?_, hdlt⟩
    · have h1 : (0 : Nat) < hd.length := by
        by_contra hcon
        have : hd = [] := List.eq_nil_of_length_eq_zero (by omega)
        rw [this] at hd1
        cases hd1
      rw [cellAt_append_lt h1]
      exact hd1
    · have h2 : (0 : Nat) < r0.length := by
        by_contra hcon
        have : r0 = [] := List.eq_nil_of_length_eq_zero (by omega)
        rw [this] at hd2
        cases hd2
      rw [hc, cellAt_append_lt h2]
      exact hd2


lemma joined_c5 : joinedDF rawW c5e =
    { cols := ["date", "city", "max_temp_F", "min_temp_F", "energy_consumption"],
      rows := [[.dt 20000, .str "A", .num 70, .num 50, .num 10],
               [.dt 20001, .str "A", .num 75, .num 55, .num 12]] } := by
  unfold joinedDF
  rw [wSel_rawW]
  decide

lemma annotate_map_pairwise_dates {l : List (List Cell)} (ext : List Cell → List Cell)
    (h : List.Pairwise (fun r1 r2 => ∃ d1 d2 : Int, cellAt r1 0 = Cell.dt d1 ∧
      cellAt r2 0 = Cell.dt d2 ∧ d1 < d2) l) :
    List.Pairwise (fun r1 r2 => ∃ d1 d2 : Int, cellAt r1 0 = Cell.dt d1 ∧
      cellAt r2 0 = Cell.dt d2 ∧ d1 < d2)
      ((annotate none l).map (fun r => r ++ ext r)) := by
  rw [List.pairwise_map]
  refine List.Pairwise.imp_of_mem ?_ (annotate_pairwise_dates h none)
  intro a b ha hb hab
  obtain ⟨r0a, _, ca, hca⟩ := annotate_mem_shape l none a ha
  obtain ⟨r0b, _, cb, hcb⟩ := annotate_mem_shape l none b hb
  obtain ⟨d1, d2, h1, h2, h3⟩ := hab
  have hla : 0 < a.length := by rw [hca]; simp
  have hlb : 0 < b.length := by rw [hcb]; simp
  refine ⟨d1, d2, ?_, ?_, h3⟩
  · rw [cellAt_append_lt hla]
    exact h1
  · rw [cellAt_append_lt hlb]
    exact h2

lemma annotate_map_zero {l : List (List Cell)} (ext : List Cell → List Cell)
    (hlen : ∀ r ∈ l, r.length = 5) :
    ∀ r, ((annotate none l).map (fun r => r ++ ext r))[0]? = some r →
      cellAt r 5 = Cell.null := by
  intro r hr
  rw [List.getElem?_map] at hr
  cases han : (annotate none l)[0]? with
  | none => rw [han] at hr; exact Option.noConfusion hr
  | some a0 =>
    rw [han] at hr
    have hra : r = a0 ++ ext a0 := (Option.some.inj hr).symm
    obtain ⟨r0, hr0b, hform⟩ := annotate_zero none l a0 han
    have hform2 : a0 = r0 ++ [Cell.null] := hform
    have hlen5 : r0.length = 5 := hlen r0 (List.getElem?_mem hr0b)
    have hl6 : 5 < a0.length := by
      rw [hform2, List.length_append, hlen5]
      decide
    rw [hra, cellAt_append_lt hl6, hform2]
    unfold cellAt
    rw [List.getD_append_right r0 _ _ 5 (by omega)]
    rw [hlen5]
    rfl

lemma annotate_map_chain {l : List (List Cell)} (ext : List Cell → List Cell)
    (hnum : ∀ r ∈ l, ∃ q, cellAt r 4 = Cell.num q)
    (hlen : ∀ r ∈ l, r.length = 5) :
    ∀ (i : Nat) (r1 r2 : List Cell),
      ((annotate none l).map (fun r => r ++ ext r))[i]? = some r1 →
      ((annotate none l).map (fun r => r ++ ext r))[i + 1]? = some r2 →
      ∃ a b : ℚ, cellAt r1 4 = Cell.num a ∧ cellAt r2 4 = Cell.num b ∧
        cellAt r2 5 = Cell.num (b - a) := by
  intro i r1 r2 h1 h2
  rw [List.getElem?_map] at h1 h2
  cases ha1 : (annotate none l)[i]? with
  | none => rw [ha1] at h1; exact Option.noConfusion h1
  | some a1 =>
    cases ha2 : (annotate none l)[i + 1]? with
    | none => rw [ha2] at h2; exact Option.noConfusion h2
    | some a2 =>
      rw [ha1] at h1
      rw [ha2] at h2
      have hr1 : r1 = a1 ++ ext a1 := (Option.some.inj h1).symm
      have hr2 : r2 = a2 ++ ext a2 := (Option.some.inj h2).symm
      obtain ⟨a, b, hA, hB, hC⟩ := annotate_chain l hnum hlen none i a1 a2 ha1 ha2
      obtain ⟨r01, hr01, c1, hc1⟩ := annotate_get_shape l none i a1 ha1
      obtain ⟨r02, hr02, c2, hc2⟩ := annotate_get_shape l none (i + 1) a2 ha2
      have hl1 : a1.length = 6 := by
        rw [hc1, List.length_append, hlen r01 (List.getElem?_mem hr01)]
        rfl
      have hl2 : a2.length = 6 := by
        rw [hc2, List.length_append, hlen r02 (List.getElem?_mem hr02)]
        rfl
      refine ⟨a, b, ?_, ?_, ?_⟩
      · rw [hr1, cellAt_append_lt (by omega : (4 : Nat) < a1.length)]
        exact hA
      · rw [hr2, cellAt_append_lt (by omega : (4 : Nat) < a2.length)]
        exact hB
      · rw [hr2, cellAt_append_lt (by omega : (5 : Nat) < a2.length)]
        exact hC

lemma base_filter_pairwise (w e : DF)
    (hwty : ∀ r ∈ w.rows, isDtCell (rowCell w.cols "date" r) = true ∧
      isStrCell (rowCell w.cols "city" r) = true)
    (hekeys : ((eSel e).rows.map keyProj).Nodup) (s : String) :
    List.Pairwise (fun r1 r2 => ∃ d1 d2 : Int, cellAt r1 0 = Cell.dt d1 ∧
      cellAt r2 0 = Cell.dt d2 ∧ d1 < d2)
      ((filterNonNegEnergy { joinedDF w e with
        rows := dedupFirst (joinedDF w e).rows }).rows.filter
          (fun r => decide (cellAt r 1 = Cell.str s))) := by
  have hkeys1 : List.Sublist
      ((filterNonNegEnergy { joinedDF w e with
        rows := dedupFirst (joinedDF w e).rows }).rows.map keyProj)
      ((joinedDF w e).rows.map keyProj) := by
    refine List.Sublist.map keyProj ?_
    refine List.Sublist.trans ?_ (dedupFirst_sublist (joinedDF w e).rows)
    exact List.filter_sublist _
  have hkeys2 := hkeys1.trans (joined_keys_sublist w e hekeys)
  rw [wSel_keys_eq w] at hkeys2
  have hkeys3 := hkeys2.trans (pivot_keys_sublist w)
  have hfil := hkeys3.filter (fun k => decide (k.2 = Cell.str s))
  have hsorted := pairwise_city_dates (sortedKeys_pairwise w) (sortedKeys_nodup w)
    (sortedKeys_typed w hwty) s
  have hkeysPW := hsorted.sublist hfil
  have hcomm : ((filterNonNegEnergy { joinedDF w e with
      rows := dedupFirst (joinedDF w e).rows }).rows.filter
        (fun r => decide (cellAt r 1 = Cell.str s))).map keyProj =
      ((filterNonNegEnergy { joinedDF w e with
        rows := dedupFirst (joinedDF w e).rows }).rows.map keyProj).filter
        (fun k => decide (k.2 = Cell.str s)) := by
    rw [List.filter_map]
    refine congrArg _ (List.filter_congr ?_)
    intro r _
    rfl
  rw [← hcomm] at hkeysPW
  have hPW0 := List.pairwise_map.mp hkeysPW
  refine hPW0.imp ?_
  intro a b hab
  obtain ⟨d1, d2, h1, h2, h3⟩ := hab
  exact ⟨d1, d2, h1, h2, h3⟩


/-- C5: for every city, the transformed table's records for that city are in
strictly increasing date order; the city's first record has a null
`energy_change`, and every later record's `energy_change` equals its
`energy_consumption` minus the immediately preceding record's
`energy_consumption` for that city (src/data_processor.py:64, the per-city
`groupby(...).diff()` computed after deduplication and the negative-energy
filter). Stated on the main path of `clean_and_transform_data`: both cleaned
sources and their join non-empty, well-typed weather keys, and energy rows
with distinct (date, city) keys. -/
theorem c5_energy_change_per_city (w e : DF)
    (hw : w.isEmpty = false) (he : e.isEmpty = false)
    (hw2 : (wSel w).isEmpty = false) (he2 : (eSel e).isEmpty = false)
    (hm : (joinedDF w e).isEmpty = false)
    (hwty : ∀ r ∈ w.rows, isDtCell (rowCell w.cols "date" r) = true ∧
      isStrCell (rowCell w.cols "city" r) = true)
    (hekeys : ((eSel e).rows.map keyProj).Nodup) (s : String) :
    List.Pairwise (fun r1 r2 => ∃ d1 d2 : Int,
        rowCell (clean_and_transform_data w e).cols "date" r1 = Cell.dt d1 ∧
        rowCell (clean_and_transform_data w e).cols "date" r2 = Cell.dt d2 ∧ d1 < d2)
      (cityRowsOf (clean_and_transform_data w e) s) ∧
    (∀ r, (cityRowsOf (clean_and_transform_data w e) s)[0]? = some r →
      rowCell (clean_and_transform_data w e).cols "energy_change" r = Cell.null) ∧
    (∀ i r1 r2, (cityRowsOf (clean_and_transform_data w e) s)[i]? = some r1 →
      (cityRowsOf (clean_and_transform_data w e) s)[i + 1]? = some r2 →
      ∃ a b : ℚ,
        rowCell (clean_and_transform_data w e).cols "energy_consumption" r1 = Cell.num a ∧
        rowCell (clean_and_transform_data w e).cols "energy_consumption" r2 = Cell.num b ∧
        rowCell (clean_and_transform_data w e).cols "energy_change" r2 = Cell.num (b - a)) := by
  rw [clean_eq_transformed w e hw he hw2 he2 hm]
  have hbase_len : ∀ r ∈ (filterNonNegEnergy { joinedDF w e with
      rows := dedupFirst (joinedDF w e).rows }).rows, r.length = 5 := by
    intro r hr
    unfold filterNonNegEnergy at hr
    exact joined_row_length (mem_of_mem_dedupFirst (List.mem_filter.mp hr).1)
  have hbase_num : ∀ r ∈ (filterNonNegEnergy { joinedDF w e with
      rows := dedupFirst (joinedDF w e).rows }).rows, ∃ q, cellAt r 4 = Cell.num q := by
    intro r hr
    unfold filterNonNegEnergy at hr
    have hp2 : cellGeNum (cellAt r 4) 0 = true := (List.mem_filter.mp hr).2
    cases hq : cellAt r 4 <;>
      first
        | exact ⟨_, rfl⟩
        | (rw [hq] at hp2; exact Bool.noConfusion hp2)
  have hTrows : (transformedDF w e).rows =
      (addChangeAux ["date", "city", "max_temp_F", "min_temp_F", "energy_consumption"] []
        (filterNonNegEnergy { joinedDF w e with
          rows := dedupFirst (joinedDF w e).rows }).rows).map
        (fun r => r ++ [dayNameCell (cellAt r 0), isWeekendCell (cellAt r 0)]) := rfl
  have hsub : cityRowsOf (transformedDF w e) s =
      (annotate none ((filterNonNegEnergy { joinedDF w e with
        rows := dedupFirst (joinedDF w e).rows }).rows.filter
          (fun r => decide (cellAt r 1 = Cell.str s)))).map
        (fun r => r ++ [dayNameCell (cellAt r 0), isWeekendCell (cellAt r 0)]) := by
    unfold cityRowsOf
    rw [hTrows, List.filter_map]
    have hpred : ∀ r ∈ addChangeAux ["date", "city", "max_temp_F", "min_temp_F",
        "energy_consumption"] [] (filterNonNegEnergy { joinedDF w e with
          rows := dedupFirst (joinedDF w e).rows }).rows,
        ((fun x => decide (rowCell (transformedDF w e).cols "city" x = Cell.str s)) ∘
          (fun r => r ++ [dayNameCell (cellAt r 0), isWeekendCell (cellAt r 0)])) r =
          decide (cellAt r 1 = Cell.str s) := by
      intro r hr
      have hr6 : r.length = 6 := addChangeAux_length hbase_len r hr
      show decide (cellAt (r ++ [dayNameCell (cellAt r 0), isWeekendCell (cellAt r 0)]) 1 =
        Cell.str s) = decide (cellAt r 1 = Cell.str s)
      rw [cellAt_append_lt (by omega : (1 : Nat) < r.length)]
    refine congrArg _ ((List.filter_congr hpred).trans ?_)
    exact addChangeAux_proj s _ [] (fun r hr => by rw [hbase_len r hr]; omega)
  refine ⟨?_, ?_, ?_⟩
  · rw [hsub]
    refine (annotate_map_pairwise_dates _ (base_filter_pairwise w e hwty hekeys s)).imp ?_
    intro a b hab
    exact hab
  · intro r hr
    rw [hsub] at hr
    exact annotate_map_zero _ (fun r2 hr2 => hbase_len r2 (List.mem_of_mem_filter hr2)) r hr
  · intro i r1 r2 h1 h2
    rw [hsub] at h1 h2
    obtain ⟨a, b, hA, hB, hC⟩ := annotate_map_chain _
      (fun r hr => hbase_num r (List.mem_of_mem_filter hr))
      (fun r hr => hbase_len r (List.mem_of_mem_filter hr)) i r1 r2 h1 h2
    exact ⟨a, b, hA, hB, hC⟩


/-- Witness for C5: at the concrete pair (rawW, c5e) — one city, two dates,
positive energy — the hypotheses hold and the per-city energy-change property
follows by the theorem. -/
theorem c5_energy_change_per_city_witness :
    rawW.isEmpty = false ∧ c5e.isEmpty = false ∧
    ((eSel c5e).rows.map keyProj).Nodup ∧
    (List.Pairwise (fun r1 r2 => ∃ d1 d2 : Int,
        rowCell (clean_and_transform_data rawW c5e).cols "date" r1 = Cell.dt d1 ∧
        rowCell (clean_and_transform_data rawW c5e).cols "date" r2 = Cell.dt d2 ∧ d1 < d2)
      (cityRowsOf (clean_and_transform_data rawW c5e) "A") ∧
    (∀ r, (cityRowsOf (clean_and_transform_data rawW c5e) "A")[0]? = some r →
      rowCell (clean_and_transform_data rawW c5e).cols "energy_change" r = Cell.null) ∧
    (∀ i r1 r2, (cityRowsOf (clean_and_transform_data rawW c5e) "A")[i]? = some r1 →
      (cityRowsOf (clean_and_transform_data rawW c5e) "A")[i + 1]? = some r2 →
      ∃ a b : ℚ,
        rowCell (clean_and_transform_data rawW c5e).cols "energy_consumption" r1 =
          Cell.num a ∧
        rowCell (clean_and_transform_data rawW c5e).cols "energy_consumption" r2 =
          Cell.num b ∧
        rowCell (clean_and_transform_data rawW c5e).cols "energy_change" r2 =
          Cell.num (b - a))) :=
  ⟨by decide, by decide, by decide,
   c5_energy_change_per_city rawW c5e (by decide) (by decide)
     (by rw [wSel_rawW]; decide) (by decide) (by rw [joined_c5]; decide)
     (by decide) (by decide) "A"⟩


end WEPipe
